import Mathlib

/-
  Shallow embedding of `src/bytedict/bytedict.py` (ByteDict).

  Python strings are Lean `String`s (sequences of Unicode code points) and
  byte strings are `List Nat`.  The SHA-256 digest primitive is an abstract
  parameter `hash : List Nat → List Nat` of the model: the specification
  treats the digest function as an external black box that is assumed to be
  collision resistant with a fixed 32-byte output, so theorems that depend
  on those properties take them as hypotheses (`Function.Injective hash`,
  `∀ bs, (hash bs).length = 32`).  The character classes of the two regular
  expressions (`\w`, `\s`, `str.isalnum`) are modelled on the ASCII
  fragment, which is the fragment all concrete inputs below exercise.
-/

set_option maxHeartbeats 1000000

namespace ByteDict

/-- A value passed from Python into the public operations: text (`str`),
a byte string (`bytes`), or any other object. -/
inductive PyVal where
  | str (s : String)
  | bytes (b : List Nat)
  | other
deriving DecidableEq

/-- Errors raised by `ensure_str` / `ensure_bytes`: `ValueError` for inputs
that are neither `str` nor `bytes`, and `UnicodeDecodeError` (raised by
`bytes.decode("utf-8")`) for byte strings that are not valid UTF-8. -/
inductive PyError where
  | valueError (msg : String)
  | unicodeDecodeError
deriving DecidableEq

/-- UTF-8 encoding of a single code point (what `str.encode("utf-8")` emits
for one character). -/
def utf8Char (c : Char) : List Nat :=
  let n := c.toNat
  if n < 0x80 then [n]
  else if n < 0x800 then [0xC0 + n / 0x40, 0x80 + n % 0x40]
  else if n < 0x10000 then
    [0xE0 + n / 0x1000, 0x80 + n / 0x40 % 0x40, 0x80 + n % 0x40]
  else
    [0xF0 + n / 0x40000, 0x80 + n / 0x1000 % 0x40, 0x80 + n / 0x40 % 0x40,
      0x80 + n % 0x40]

/-- UTF-8 encoding of a whole string (`str.encode("utf-8")`). -/
def utf8Str (s : String) : List Nat :=
  (s.data.map utf8Char).flatten

/-- Whether a byte is a UTF-8 continuation byte (`0x80`–`0xBF`). -/
def isCont (b : Nat) : Bool :=
  0x80 ≤ b && b ≤ 0xBF

/-- Strict UTF-8 decoder (`bytes.decode("utf-8")`): rejects invalid lead
bytes, truncated sequences, overlong encodings and surrogates, exactly as
Python's strict `utf-8` codec does. -/
def utf8DecodeAux : List Nat → Option (List Char)
  | [] => some []
  | b :: rest =>
    if b ≤ 0x7F then
      (utf8DecodeAux rest).map (fun cs => Char.ofNat b :: cs)
    else if 0xC2 ≤ b && b ≤ 0xDF then
      match rest with
      | b2 :: r =>
        if isCont b2 then
          (utf8DecodeAux r).map
            (fun cs => Char.ofNat ((b - 0xC0) * 0x40 + (b2 - 0x80)) :: cs)
        else none
      | [] => none
    else if 0xE0 ≤ b && b ≤ 0xEF then
      match rest with
      | b2 :: b3 :: r =>
        if (if b = 0xE0 then decide (0xA0 ≤ b2) && decide (b2 ≤ 0xBF)
            else if b = 0xED then decide (0x80 ≤ b2) && decide (b2 ≤ 0x9F)
            else isCont b2) && isCont b3 then
          (utf8DecodeAux r).map
            (fun cs =>
              Char.ofNat ((b - 0xE0) * 0x1000 + (b2 - 0x80) * 0x40 + (b3 - 0x80)) :: cs)
        else none
      | _ => none
    else if 0xF0 ≤ b && b ≤ 0xF4 then
      match rest with
      | b2 :: b3 :: b4 :: r =>
        if (if b = 0xF0 then decide (0x90 ≤ b2) && decide (b2 ≤ 0xBF)
            else if b = 0xF4 then decide (0x80 ≤ b2) && decide (b2 ≤ 0x8F)
            else isCont b2) && isCont b3 && isCont b4 then
          (utf8DecodeAux r).map
            (fun cs =>
              Char.ofNat ((b - 0xF0) * 0x40000 + (b2 - 0x80) * 0x1000 +
                (b3 - 0x80) * 0x40 + (b4 - 0x80)) :: cs)
        else none
      | _ => none
    else none

def utf8Decode (bs : List Nat) : Option String :=
  (utf8DecodeAux bs).map (fun cs => String.mk cs)

/-- Model of `ensure_str` (bytedict.py, lines 5–11). -/
def ensure_str (v : PyVal) : Except PyError String :=
  match v with
  | .str s => .ok s
  | .bytes b =>
    match utf8Decode b with
    | some s => .ok s
    | none => .error .unicodeDecodeError
  | .other => .error (.valueError "Input value must be str or bytes.")

/-- Model of `ensure_bytes` (bytedict.py, lines 14–20). -/
def ensure_bytes (v : PyVal) : Except PyError (List Nat) :=
  match v with
  | .bytes b => .ok b
  | .str s => .ok (utf8Str s)
  | .other => .error (.valueError "Input value must be str or bytes.")

/-- First-match association-list lookup: the behaviour of a Python `dict`
probe (`d[k]` / `k in d` / `d.get`), with insertion modelled by `cons` so
that the most recent binding for a key shadows older ones. -/
def find? (d : List Nat) : List (List Nat × α) → Option α
  | [] => none
  | (k, v) :: t => if k = d then some v else find? d t

/-- The four mappings of `GlobalDictionary.__init__` (bytedict.py 24–28).
Embedding vectors are `list[float]` in the source; the store never computes
with them, so their components are modelled by an opaque numeric carrier. -/
structure GlobalDictionary where
  char_store : List (List Nat × String)
  word_store : List (List Nat × String)
  phrase_store : List (List Nat × String)
  embedding_store : List (List Nat × List Int)
deriving DecidableEq

/-- A fresh `GlobalDictionary()` — all four mappings start empty. -/
def emptyDict : GlobalDictionary := ⟨[], [], [], []⟩

/-- Sentence terminators of the regex `(?<=[.!?]) +`. -/
def sentTerm (c : Char) : Bool :=
  c = '.' || c = '!' || c = '?'

def headTerm : List Char → Bool
  | [] => false
  | c :: _ => sentTerm c

/-- Model of `re.split(r"(?<=[.!?]) +", text)`: split on maximal runs of spaces that
are preceded by `.`, `!` or `?`.  The flag records whether we are currently
inside such a separator run, `acc` holds the current sentence reversed. -/
def splitSentAux : Bool → List Char → List Char → List (List Char)
  | _, acc, [] => [acc.reverse]
  | true, acc, c :: rest =>
    if c = ' ' then splitSentAux true acc rest
    else splitSentAux false (c :: acc) rest
  | false, acc, c :: rest =>
    if c = ' ' && headTerm acc then acc.reverse :: splitSentAux true [] rest
    else splitSentAux false (c :: acc) rest

def splitSentences (s : String) : List String :=
  (splitSentAux false [] s.data).map (fun cs => String.mk cs)

/-- Model of `re.split(r"[,;]", sentence)`: split at every comma or semicolon. -/
def splitClausesAux : List Char → List Char → List (List Char)
  | acc, [] => [acc.reverse]
  | acc, c :: rest =>
    if c = ',' || c = ';' then acc.reverse :: splitClausesAux [] rest
    else splitClausesAux (c :: acc) rest

def splitClauses (s : String) : List String :=
  (splitClausesAux [] s.data).map (fun cs => String.mk cs)

/-- The `\w` class of Python's `re`, on the ASCII fragment. -/
def isWordChar (c : Char) : Bool :=
  c.isAlphanum || c = '_'

/-- The `\s` class of Python's `re`, on the ASCII fragment. -/
def isSpaceChar (c : Char) : Bool :=
  c.isWhitespace

/-- Model of `re.findall(r"\w+|[^\w\s]", s)`: maximal runs of word characters, or
single non-word non-whitespace characters; whitespace is dropped.  `acc`
holds the current word-character run reversed. -/
def findTokAux : List Char → List Char → List (List Char)
  | acc, [] => if acc.isEmpty then [] else [acc.reverse]
  | acc, c :: rest =>
    if isWordChar c then findTokAux (c :: acc) rest
    else
      let pre := if acc.isEmpty then ([] : List (List Char)) else [acc.reverse]
      if isSpaceChar c then pre ++ findTokAux [] rest
      else pre ++ ([c] :: findTokAux [] rest)

def findTokens (s : String) : List String :=
  (findTokAux [] s.data).map (fun cs => String.mk cs)

/-- Python's `str.isalnum()` on the ASCII fragment: nonempty and every character
alphanumeric (note `"_".isalnum()` is `False` although `_` matches `\w`). -/
def pyIsAlnum (s : String) : Bool :=
  !s.data.isEmpty && s.data.all Char.isAlphanum

/-- Python `l[-k:]` as used on `token_hashes` (bytedict.py 146 and 153):
for `k > 0` the last `k` entries, but `l[-0:]` is the whole list. -/
def lastSlice (k : Nat) (l : List α) : List α :=
  if k = 0 then l else l.drop (l.length - k)

section Model

variable (hash : List Nat → List Nat)

/-- Model of `GlobalDictionary.get_hash` (bytedict.py 30–34). -/
def get_hash (v : PyVal) : Except PyError (List Nat) :=
  (ensure_bytes v).map hash

/-- The `str` path of `GlobalDictionary.add_char` (bytedict.py 36–42). -/
def add_char' (s : String) (st : GlobalDictionary) :
    List Nat × GlobalDictionary :=
  let hv := hash (utf8Str s)
  if (find? hv st.char_store).isSome then (hv, st)
  else (hv, { st with char_store := (hv, s) :: st.char_store })

/-- Model of `GlobalDictionary.add_char` (bytedict.py 36–42): the hash is taken over
the original value's bytes, the stored payload is its decoded text. -/
def add_char (v : PyVal) (st : GlobalDictionary) :
    Except PyError (List Nat) × GlobalDictionary :=
  match ensure_bytes v with
  | .error e => (.error e, st)
  | .ok bs =>
    match ensure_str v with
    | .error e => (.error e, st)
    | .ok c =>
      let hv := hash bs
      if (find? hv st.char_store).isSome then (.ok hv, st)
      else (.ok hv, { st with char_store := (hv, c) :: st.char_store })

/-- The `str` path of `GlobalDictionary.add_word` (bytedict.py 44–51):
insert every character, hash the concatenation of the character digests,
insert the word under that digest if absent. -/
def add_word' (w : String) (st : GlobalDictionary) :
    List Nat × GlobalDictionary :=
  let r := w.data.foldl
    (fun (acc : List (List Nat) × GlobalDictionary) c =>
      let rc := add_char' hash (String.singleton c) acc.2
      (acc.1 ++ [rc.1], rc.2))
    ([], st)
  let combined := hash r.1.flatten
  if (find? combined r.2.word_store).isSome then (combined, r.2)
  else (combined, { r.2 with word_store := (combined, w) :: r.2.word_store })

/-- Model of `GlobalDictionary.add_word` (bytedict.py 44–51): `ensure_str` first,
then the `str` path on the decoded text. -/
def add_word (v : PyVal) (st : GlobalDictionary) :
    Except PyError (List Nat) × GlobalDictionary :=
  match ensure_str v with
  | .error e => (.error e, st)
  | .ok w =>
    let r := add_word' hash w st
    (.ok r.1, r.2)

/-- The `str` path of `GlobalDictionary.add_phrase` (bytedict.py 53–64):
tokenize, route alphanumeric tokens through `add_word` and the others
through `add_char`, hash the concatenated token digests, insert the phrase
under that digest if absent. -/
def add_phrase' (p : String) (st : GlobalDictionary) :
    List Nat × GlobalDictionary :=
  let tokens := findTokens p
  let r := tokens.foldl
    (fun (acc : List (List Nat) × GlobalDictionary) t =>
      let rt := if pyIsAlnum t then add_word' hash t acc.2
                else add_char' hash t acc.2
      (acc.1 ++ [rt.1], rt.2))
    ([], st)
  let combined := hash r.1.flatten
  if (find? combined r.2.phrase_store).isSome then (combined, r.2)
  else
    (combined, { r.2 with phrase_store := (combined, p) :: r.2.phrase_store })

/-- Model of `GlobalDictionary.add_phrase` (bytedict.py 53–64). -/
def add_phrase (v : PyVal) (st : GlobalDictionary) :
    Except PyError (List Nat) × GlobalDictionary :=
  match ensure_str v with
  | .error e => (.error e, st)
  | .ok p =>
    let r := add_phrase' hash p st
    (.ok r.1, r.2)

end Model

/-- Model of `GlobalDictionary.get_char` (bytedict.py 66–68): `dict.get` with the
literal default string `"Not found"`. -/
def get_char (d : List Nat) (st : GlobalDictionary) : String :=
  (find? d st.char_store).getD "Not found"

/-- Model of `GlobalDictionary.get_word` (bytedict.py 70–72). -/
def get_word (d : List Nat) (st : GlobalDictionary) : String :=
  (find? d st.word_store).getD "Not found"

/-- Model of `GlobalDictionary.get_phrase` (bytedict.py 74–76). -/
def get_phrase (d : List Nat) (st : GlobalDictionary) : String :=
  (find? d st.phrase_store).getD "Not found"

/-- Model of `GlobalDictionary.add_embedding` (bytedict.py 78–80): an unconditional
`dict` assignment — the new binding shadows any previous one. -/
def add_embedding (d : List Nat) (e : List Int) (st : GlobalDictionary) :
    GlobalDictionary :=
  { st with embedding_store := (d, e) :: st.embedding_store }

/-- Model of `GlobalDictionary.get_embedding` (bytedict.py 82–84). -/
def get_embedding (d : List Nat) (st : GlobalDictionary) : List Int :=
  (find? d st.embedding_store).getD []

section Tokenizer

variable (hash : List Nat → List Nat)

/-- Inner word loop of `Tokenizer.tokenize_and_embed` (bytedict.py 129–142):
hash each character of an unknown word, inserting it when absent; then
register the word via `add_word` and append the composite digest computed
from the freshly collected character digests. -/
def processWord (acc : List (List Nat) × GlobalDictionary) (word : String) :
    List (List Nat) × GlobalDictionary :=
  let r := word.data.foldl
    (fun (a : List (List Nat) × GlobalDictionary) c =>
      let char_hash := hash (utf8Char c)
      let st' := if (find? char_hash a.2.char_store).isSome then a.2
                 else (add_char' hash (String.singleton c) a.2).2
      (a.1 ++ [char_hash], st'))
    ([], acc.2)
  let combined_word_hash := hash r.1.flatten
  let st2 := (add_word' hash word r.2).2
  (acc.1 ++ [combined_word_hash], st2)

/-- Clause body of `Tokenizer.tokenize_and_embed` (bytedict.py 117–149):
scan the clause's tokens against the word store (appending memoized hits,
collecting the unknown ones), process the unknown words, then register the
clause via `add_phrase` and append a composite digest sliced off the shared
accumulator with `token_hashes[-len(words):]`. -/
def processClause (acc : List (List Nat) × GlobalDictionary) (phrase : String) :
    List (List Nat) × GlobalDictionary :=
  let st := acc.2
  let words := findTokens phrase
  let scan := words.foldl
    (fun (a : List (List Nat) × List String) word =>
      let word_hash := hash (utf8Str word)
      if (find? word_hash st.word_store).isSome then (a.1 ++ [word_hash], a.2)
      else (a.1, a.2 ++ [word]))
    (acc.1, [])
  let r := scan.2.foldl (fun a word => processWord hash a word) (scan.1, st)
  let combined_phrase_hash := hash (lastSlice words.length r.1).flatten
  let st3 := (add_phrase' hash phrase r.2).2
  (r.1 ++ [combined_phrase_hash], st3)

/-- Sentence body of `Tokenizer.tokenize_and_embed` (bytedict.py 101–156):
memoized-skip probe with the hash of the raw sentence text, otherwise scan
the clauses against the phrase store, process the unknown clauses, then
register the sentence via `add_phrase` and append a composite digest sliced
off the shared accumulator with `token_hashes[-len(phrases):]`. -/
def processSentence (acc : List (List Nat) × GlobalDictionary)
    (sentence : String) : List (List Nat) × GlobalDictionary :=
  let st := acc.2
  let sentence_hash := hash (utf8Str sentence)
  if (find? sentence_hash st.phrase_store).isSome then
    (acc.1 ++ [sentence_hash], st)
  else
    let phrases := splitClauses sentence
    let scan := phrases.foldl
      (fun (a : List (List Nat) × List String) phrase =>
        let phrase_hash := hash (utf8Str phrase)
        if (find? phrase_hash st.phrase_store).isSome then
          (a.1 ++ [phrase_hash], a.2)
        else (a.1, a.2 ++ [phrase]))
      (acc.1, [])
    let r := scan.2.foldl (fun a phrase => processClause hash a phrase) (scan.1, st)
    let combined_sentence_hash := hash (lastSlice phrases.length r.1).flatten
    let st3 := (add_phrase' hash sentence r.2).2
    (r.1 ++ [combined_sentence_hash], st3)

/-- Model of `Tokenizer.tokenize_and_embed` (bytedict.py 91–158). -/
def tokenize_and_embed (v : PyVal) (st : GlobalDictionary) :
    Except PyError (List (List Nat)) × GlobalDictionary :=
  match ensure_str v with
  | .error e => (.error e, st)
  | .ok text =>
    let r := (splitSentences text).foldl
      (fun a sentence => processSentence hash a sentence) ([], st)
    (.ok r.1, r.2)

end Tokenizer

end ByteDict

namespace ByteDict

/-! ### Definitions used by the verification statements -/

/-- Injective encoding of a byte list into `ℕ`: `encList (b :: t)` has
exactly `b` low zero bits, then a one bit, then the encoding of `t`. -/
def encList : List Nat → Nat
  | [] => 0
  | b :: t => 2 ^ b * (2 * encList t + 1)

/-- A concrete digest function with the two properties the specification
assumes of the black-box hash primitive (injectivity on the inputs the
store can produce, and a fixed output length of 32 entries), used to
instantiate the abstract `hash` parameter in witnesses. -/
def myHash (bs : List Nat) : List Nat :=
  encList bs :: List.replicate 31 0

section Keys

variable (hash : List Nat → List Nat)

/-- The concatenated digest bytes of a word's ordered children (its
characters), exactly as `add_word` concatenates them. -/
def wordChildren (w : String) : List Nat :=
  (w.data.map (fun c => hash (utf8Char c))).flatten

/-- The digest under which `add_word` files a word. -/
def wordKey (w : String) : List Nat :=
  hash (wordChildren hash w)

/-- The digest contributed by one token of a phrase in `add_phrase`:
alphanumeric tokens go through `add_word`, all others through `add_char`. -/
def tokenKey (t : String) : List Nat :=
  if pyIsAlnum t then wordKey hash t else hash (utf8Str t)

/-- The concatenated digest bytes of a phrase's ordered children (its
word/character tokens), exactly as `add_phrase` concatenates them. -/
def phraseChildren (p : String) : List Nat :=
  ((findTokens p).map (tokenKey hash)).flatten

/-- The digest under which `add_phrase` files a phrase. -/
def phraseKey (p : String) : List Nat :=
  hash (phraseChildren hash p)

/-- The digest-composition invariant of the word and phrase mappings:
every entry is keyed by the hash of the concatenated digests of its
payload's ordered children. -/
def Inv (st : GlobalDictionary) : Prop :=
  (∀ kv ∈ st.word_store, kv.1 = wordKey hash kv.2) ∧
  (∀ kv ∈ st.phrase_store, kv.1 = phraseKey hash kv.2)

/-- Store states reachable from a fresh store by the public operations
named in the claim: `add_char`, `add_word`, `add_phrase` and
`tokenize_and_embed`, with arbitrary inputs. -/
inductive Reachable : GlobalDictionary → Prop where
  | init : Reachable emptyDict
  | char (v : PyVal) (st : GlobalDictionary) :
      Reachable st → Reachable (add_char hash v st).2
  | word (v : PyVal) (st : GlobalDictionary) :
      Reachable st → Reachable (add_word hash v st).2
  | phrase (v : PyVal) (st : GlobalDictionary) :
      Reachable st → Reachable (add_phrase hash v st).2
  | tok (v : PyVal) (st : GlobalDictionary) :
      Reachable st → Reachable (tokenize_and_embed hash v st).2

/-- The store after `tokenize_and_embed("H")` on a fresh store. -/
def hStore : GlobalDictionary :=
  { char_store := [(hash [72], "H")],
    word_store := [(hash (hash [72]), "H")],
    phrase_store := [(hash (hash (hash [72])), "H")],
    embedding_store := [] }

/-- The store after `tokenize_and_embed("Hi. Bye!")` on a fresh store. -/
def hiByeStore : GlobalDictionary :=
  { char_store := [(hash [33], "!"), (hash [101], "e"), (hash [121], "y"),
      (hash [66], "B"), (hash [46], "."), (hash [105], "i"), (hash [72], "H")],
    word_store := [(hash (hash [33]), "!"),
      (hash (hash [66] ++ (hash [121] ++ hash [101])), "Bye"),
      (hash (hash [46]), "."),
      (hash (hash [72] ++ hash [105]), "Hi")],
    phrase_store :=
      [(hash (hash (hash [66] ++ (hash [121] ++ hash [101])) ++ hash [33]), "Bye!"),
       (hash (hash (hash [72] ++ hash [105]) ++ hash [46]), "Hi.")],
    embedding_store := [] }

end Keys

/-- The store used in the counterexample to C7: a caller has inserted the
text `"Not found"` itself into the character mapping. -/
def c7Store : GlobalDictionary :=
  (add_char myHash (.str "Not found") emptyDict).2

/-- The store used in the counterexample to C4: `insertWord("")` files the
empty word under the hash of the empty byte string, which is also the hash
of its own raw text. -/
def c4Store : GlobalDictionary :=
  (add_word myHash (.str "") emptyDict).2

end ByteDict

namespace ByteDict

/-! ### Basic lemmas -/

lemma pow2_odd_inj : ∀ b1 t1 b2 t2 : Nat,
    2 ^ b1 * (2 * t1 + 1) = 2 ^ b2 * (2 * t2 + 1) → b1 = b2 ∧ t1 = t2 := by
  intro b1
  induction b1 with
  | zero =>
    intro t1 b2 t2 h
    cases b2 with
    | zero =>
      simp only [pow_zero, one_mul] at h
      omega
    | succ s =>
      exfalso
      have h2 : 2 * t1 + 1 = 2 * (2 ^ s * (2 * t2 + 1)) := by
        calc 2 * t1 + 1 = 2 ^ 0 * (2 * t1 + 1) := by ring
          _ = 2 ^ (s + 1) * (2 * t2 + 1) := h
          _ = 2 * (2 ^ s * (2 * t2 + 1)) := by rw [pow_succ]; ring
      generalize 2 ^ s * (2 * t2 + 1) = m at h2
      omega
  | succ s1 ih =>
    intro t1 b2 t2 h
    cases b2 with
    | zero =>
      exfalso
      have h2 : 2 * (2 ^ s1 * (2 * t1 + 1)) = 2 * t2 + 1 := by
        calc 2 * (2 ^ s1 * (2 * t1 + 1))
            = 2 ^ (s1 + 1) * (2 * t1 + 1) := by rw [pow_succ]; ring
          _ = 2 ^ 0 * (2 * t2 + 1) := h
          _ = 2 * t2 + 1 := by ring
      generalize 2 ^ s1 * (2 * t1 + 1) = m at h2
      omega
    | succ s2 =>
      have e1 : 2 ^ (s1 + 1) * (2 * t1 + 1) = 2 * (2 ^ s1 * (2 * t1 + 1)) := by
        rw [pow_succ]; ring
      have e2 : 2 ^ (s2 + 1) * (2 * t2 + 1) = 2 * (2 ^ s2 * (2 * t2 + 1)) := by
        rw [pow_succ]; ring
      rw [e1, e2] at h
      have h3 := Nat.eq_of_mul_eq_mul_left (by norm_num) h
      obtain ⟨hb, ht⟩ := ih t1 s2 t2 h3
      exact ⟨by omega, ht⟩

lemma encList_injective : Function.Injective encList := by
  intro x y h
  induction x generalizing y with
  | nil =>
    cases y with
    | nil => rfl
    | cons b t =>
      exfalso
      have hp : 0 < 2 ^ b * (2 * encList t + 1) := by positivity
      simp only [encList] at h
      omega
  | cons a s ih =>
    cases y with
    | nil =>
      exfalso
      have hp : 0 < 2 ^ a * (2 * encList s + 1) := by positivity
      simp only [encList] at h
      omega
    | cons b t =>
      simp only [encList] at h
      obtain ⟨hb, ht⟩ := pow2_odd_inj a (encList s) b (encList t) h
      rw [hb, ih ht]

lemma myHash_injective : Function.Injective myHash := by
  intro x y h
  simp only [myHash, List.cons.injEq] at h
  exact encList_injective h.1

lemma myHash_length : ∀ bs, (myHash bs).length = 32 := by
  intro bs
  simp [myHash]

lemma ne_of_length_ne {a b : List Nat} (h : a.length ≠ b.length) : a ≠ b :=
  fun e => h (by rw [e])

lemma hash_ne {hash : List Nat → List Nat} (HInj : Function.Injective hash)
    {x y : List Nat} (h : x ≠ y) : hash x ≠ hash y :=
  fun e => h (HInj e)

@[simp] lemma find?_nil (d : List Nat) :
    find? d ([] : List (List Nat × α)) = none := rfl

@[simp] lemma find?_cons (d k : List Nat) (v : α) (t : List (List Nat × α)) :
    find? d ((k, v) :: t) = if k = d then some v else find? d t := rfl

@[simp] lemma utf8Str_singleton (c : Char) :
    utf8Str (String.singleton c) = utf8Char c := by
  simp [utf8Str, String.singleton]

section HashLemmas

variable (hash : List Nat → List Nat)

lemma add_char'_fst (s : String) (st : GlobalDictionary) :
    (add_char' hash s st).1 = hash (utf8Str s) := by
  simp only [add_char']
  split <;> rfl

end HashLemmas

end ByteDict

namespace ByteDict

section OpLemmas

variable (hash : List Nat → List Nat)

lemma add_char'_present (s : String) (st : GlobalDictionary) :
    (find? (hash (utf8Str s)) (add_char' hash s st).2.char_store).isSome = true := by
  simp only [add_char']
  split
  · next h => exact h
  · simp

lemma find?_char_mono (d : List Nat) (s : String) (st : GlobalDictionary)
    (h : (find? d st.char_store).isSome = true) :
    (find? d (add_char' hash s st).2.char_store).isSome = true := by
  simp only [add_char']
  split
  · exact h
  · simp only [find?_cons]
    split
    · rfl
    · exact h

lemma add_word'_fold_digests : ∀ (cs : List Char) (hs : List (List Nat))
    (st : GlobalDictionary),
    (cs.foldl (fun (acc : List (List Nat) × GlobalDictionary) c =>
        let rc := add_char' hash (String.singleton c) acc.2
        (acc.1 ++ [rc.1], rc.2)) (hs, st)).1 =
      hs ++ cs.map (fun c => hash (utf8Char c)) := by
  intro cs
  induction cs with
  | nil => intro hs st; simp
  | cons c t ih =>
    intro hs st
    simp only [List.foldl_cons, List.map_cons]
    rw [ih]
    simp [add_char'_fst]

lemma add_word'_fold_preserves (d : List Nat) : ∀ (cs : List Char)
    (hs : List (List Nat)) (st : GlobalDictionary),
    (find? d st.char_store).isSome = true →
    (find? d ((cs.foldl (fun (acc : List (List Nat) × GlobalDictionary) c =>
        let rc := add_char' hash (String.singleton c) acc.2
        (acc.1 ++ [rc.1], rc.2)) (hs, st)).2).char_store).isSome = true := by
  intro cs
  induction cs with
  | nil => intro hs st h; exact h
  | cons c t ih =>
    intro hs st h
    simp only [List.foldl_cons]
    exact ih _ _ (find?_char_mono hash d _ st h)

lemma add_word'_fold_chars_present : ∀ (cs : List Char) (hs : List (List Nat))
    (st : GlobalDictionary) (c : Char), c ∈ cs →
    (find? (hash (utf8Char c)) ((cs.foldl
        (fun (acc : List (List Nat) × GlobalDictionary) c =>
          let rc := add_char' hash (String.singleton c) acc.2
          (acc.1 ++ [rc.1], rc.2)) (hs, st)).2).char_store).isSome = true := by
  intro cs
  induction cs with
  | nil => intro hs st c hc; cases hc
  | cons c0 t ih =>
    intro hs st c hc
    simp only [List.foldl_cons]
    rcases List.mem_cons.mp hc with rfl | hct
    · apply add_word'_fold_preserves
      have := add_char'_present hash (String.singleton c) st
      rwa [utf8Str_singleton] at this
    · exact ih _ _ c hct

lemma add_word'_fst (w : String) (st : GlobalDictionary) :
    (add_word' hash w st).1 = wordKey hash w := by
  simp only [add_word']
  split <;> simp [add_word'_fold_digests, wordKey, wordChildren]

lemma add_word'_char_store (w : String) (st : GlobalDictionary) :
    (add_word' hash w st).2.char_store =
      ((w.data.foldl (fun (acc : List (List Nat) × GlobalDictionary) c =>
        let rc := add_char' hash (String.singleton c) acc.2
        (acc.1 ++ [rc.1], rc.2)) ([], st)).2).char_store := by
  simp only [add_word']
  split <;> rfl

end OpLemmas

/-! ### C6: the embedding mapping is not insert-if-absent -/

/-- C6 counterexample: `setEmbedding` is an unconditional `dict` assignment,
so a second `setEmbedding` on the same digest replaces the stored vector:
after `setEmbedding([0], [1]); setEmbedding([0], [2])` the retrieved
embedding is `[2]`, not the first-written `[1]` the claim requires. -/
theorem c6_counterexample :
    get_embedding [0] (add_embedding [0] [2] (add_embedding [0] [1] emptyDict)) = [2] ∧
      ([2] : List Int) ≠ [1] := by
  constructor
  · rfl
  · decide

/-- C6 (amended): the embedding mapping is last-writer-wins, unlike the
three text mappings: after `setEmbedding(d, v1); setEmbedding(d, v2)` the
stored embedding for `d` is `v2`. -/
theorem c6_embedding_overwrites (d : List Nat) (v1 v2 : List Int)
    (st : GlobalDictionary) :
    get_embedding d (add_embedding d v2 (add_embedding d v1 st)) = v2 := by
  simp [get_embedding, add_embedding]

/-! ### C7: the not-found result is a sentinel string -/

/-- C7 counterexample: the miss result of `get_char` is the literal string
`"Not found"`, and a caller can store that very text (here via
`insertCharacter("Not found")`, which performs no arity check), after which
a hit on the stored entry and a miss on an absent digest are
indistinguishable: both return `"Not found"`. -/
theorem c7_counterexample :
    get_char (myHash (utf8Str "Not found")) c7Store = "Not found" ∧
    find? (myHash (utf8Str "Not found")) c7Store.char_store = some "Not found" ∧
    get_char [] c7Store = "Not found" ∧
    find? ([] : List Nat) c7Store.char_store = none := by
  have hne : myHash (utf8Str "Not found") ≠ [] := by simp [myHash]
  refine ⟨?_, ?_, ?_, ?_⟩ <;>
    simp [c7Store, add_char, ensure_bytes, ensure_str, get_char, emptyDict, hne]

/-- C7 (amended): on a digest absent from the respective mapping,
`get_char`, `get_word` and `get_phrase` return the literal sentinel string
`"Not found"` — a value a caller can also legitimately store, so the miss
result is not distinguishable from every stored payload. -/
theorem c7_lookup_miss_returns_sentinel (d : List Nat) (st : GlobalDictionary)
    (hc : find? d st.char_store = none) (hw : find? d st.word_store = none)
    (hp : find? d st.phrase_store = none) :
    get_char d st = "Not found" ∧ get_word d st = "Not found" ∧
      get_phrase d st = "Not found" := by
  simp [get_char, get_word, get_phrase, hc, hw, hp]

theorem c7_lookup_miss_returns_sentinel_witness :
    get_char [] emptyDict = "Not found" ∧ get_word [] emptyDict = "Not found" ∧
      get_phrase [] emptyDict = "Not found" :=
  c7_lookup_miss_returns_sentinel [] emptyDict rfl rfl rfl

end ByteDict

namespace ByteDict

/-! ### C8: invalid input type and encoding errors -/

/-- C8: `insertCharacter`/`insertWord`/`insertPhrase` fail with a
`ValueError` ("InvalidInputType") on a value that is neither text nor
bytes, and with a `UnicodeDecodeError` ("EncodingError") on bytes that are
not valid UTF-8; in every failure case the returned store is exactly the
store passed in, so all four mappings are unchanged. -/
theorem c8_invalid_inputs_rejected (hash : List Nat → List Nat)
    (st : GlobalDictionary) :
    (add_char hash .other st =
        (.error (.valueError "Input value must be str or bytes."), st) ∧
      add_word hash .other st =
        (.error (.valueError "Input value must be str or bytes."), st) ∧
      add_phrase hash .other st =
        (.error (.valueError "Input value must be str or bytes."), st)) ∧
    (∀ bs : List Nat, utf8Decode bs = none →
      add_char hash (.bytes bs) st = (.error .unicodeDecodeError, st) ∧
        add_word hash (.bytes bs) st = (.error .unicodeDecodeError, st) ∧
        add_phrase hash (.bytes bs) st = (.error .unicodeDecodeError, st)) := by
  refine ⟨⟨rfl, rfl, rfl⟩, ?_⟩
  intro bs h
  refine ⟨?_, ?_, ?_⟩ <;>
    simp [add_char, add_word, add_phrase, ensure_str, ensure_bytes, h]

theorem c8_invalid_inputs_rejected_witness :
    utf8Decode [255] = none ∧
      add_char myHash (.bytes [255]) emptyDict =
        (.error .unicodeDecodeError, emptyDict) ∧
      add_word myHash (.bytes [255]) emptyDict =
        (.error .unicodeDecodeError, emptyDict) ∧
      add_phrase myHash (.bytes [255]) emptyDict =
        (.error .unicodeDecodeError, emptyDict) :=
  ⟨rfl, ((c8_invalid_inputs_rejected myHash emptyDict).2 [255] rfl).1,
    ((c8_invalid_inputs_rejected myHash emptyDict).2 [255] rfl).2.1,
    ((c8_invalid_inputs_rejected myHash emptyDict).2 [255] rfl).2.2⟩

/-! ### C9: character round trip -/

/-- C9: for a single character `c` inserted into a store whose character
mapping holds no colliding entry under `hash(utf8(c))` (in particular a
fresh store), `get_char (insertCharacter c) = c`. -/
theorem c9_character_round_trip (hash : List Nat → List Nat) (c : Char)
    (st : GlobalDictionary)
    (H : find? (hash (utf8Char c)) st.char_store = none ∨
      find? (hash (utf8Char c)) st.char_store = some (String.singleton c)) :
    ∀ (d : List Nat) (st' : GlobalDictionary),
      add_char hash (.str (String.singleton c)) st = (.ok d, st') →
      get_char d st' = String.singleton c := by
  intro d st' h
  simp only [add_char, ensure_bytes, ensure_str, utf8Str_singleton] at h
  rcases H with habs | hsome
  · rw [habs] at h
    simp only [Option.isSome_none, Bool.false_eq_true, if_false, Prod.mk.injEq,
      Except.ok.injEq] at h
    obtain ⟨hd, hst⟩ := h
    rw [← hd, ← hst]
    simp [get_char]
  · rw [hsome] at h
    simp only [Option.isSome_some, if_true, Prod.mk.injEq, Except.ok.injEq] at h
    obtain ⟨hd, hst⟩ := h
    rw [← hd, ← hst]
    simp [get_char, hsome]

theorem c9_character_round_trip_witness :
    get_char (myHash (utf8Char 'a'))
      ⟨[(myHash (utf8Char 'a'), "a")], [], [], []⟩ = "a" :=
  c9_character_round_trip myHash 'a' emptyDict (Or.inl rfl)
    (myHash (utf8Char 'a')) ⟨[(myHash (utf8Char 'a'), "a")], [], [], []⟩ rfl

/-! ### C10: insertCharacter has no arity check -/

/-- C10: `insertCharacter` accepts any text `s` (empty or many code
points), returns `hash(utf8(s))`, and when that digest is absent it stores
the entire string `s` as a payload of the character mapping. -/
theorem c10_no_arity_check (hash : List Nat → List Nat) (s : String)
    (st : GlobalDictionary) :
    (add_char hash (.str s) st).1 = .ok (hash (utf8Str s)) ∧
    (find? (hash (utf8Str s)) st.char_store = none →
      (add_char hash (.str s) st).2.char_store =
        (hash (utf8Str s), s) :: st.char_store) := by
  constructor
  · simp only [add_char, ensure_bytes, ensure_str]
    split <;> rfl
  · intro habs
    simp [add_char, ensure_bytes, ensure_str, habs]

theorem c10_no_arity_check_witness :
    (add_char myHash (.str "ab") emptyDict).1 = .ok (myHash (utf8Str "ab")) ∧
      (add_char myHash (.str "ab") emptyDict).2.char_store =
        [(myHash (utf8Str "ab"), "ab")] :=
  ⟨(c10_no_arity_check myHash "ab" emptyDict).1,
    (c10_no_arity_check myHash "ab" emptyDict).2 rfl⟩

/-! ### C5: word composition law -/

/-- C5: `insertWord(w)` returns the hash of the concatenation, in original
order, of the digests `insertCharacter(cᵢ)` of the characters of `w`, and
as a side effect every character of `w` is present in the character
mapping afterwards. -/
theorem c5_word_composition_law (hash : List Nat → List Nat) (w : String)
    (st : GlobalDictionary) :
    (add_word hash (.str w) st).1 =
      .ok (hash ((w.data.map
        (fun c => (add_char' hash (String.singleton c) st).1)).flatten)) ∧
    ∀ c ∈ w.data,
      (find? ((add_char' hash (String.singleton c) st).1)
        ((add_word hash (.str w) st).2).char_store).isSome = true := by
  have hmap : (w.data.map (fun c => (add_char' hash (String.singleton c) st).1))
      = w.data.map (fun c => hash (utf8Char c)) := by
    apply List.map_congr_left
    intro c _
    rw [add_char'_fst, utf8Str_singleton]
  constructor
  · simp only [add_word, ensure_str]
    rw [add_word'_fst, hmap]
    rfl
  · intro c hc
    rw [add_char'_fst, utf8Str_singleton]
    simp only [add_word, ensure_str]
    rw [add_word'_char_store]
    exact add_word'_fold_chars_present hash w.data [] st c hc

theorem c5_word_composition_law_witness :
    (add_word myHash (.str "ab") emptyDict).1 =
      .ok (myHash ((("ab").data.map
        (fun c => (add_char' myHash (String.singleton c) emptyDict).1)).flatten)) ∧
    (find? ((add_char' myHash (String.singleton 'a') emptyDict).1)
        ((add_word myHash (.str "ab") emptyDict).2).char_store).isSome = true ∧
    (find? ((add_char' myHash (String.singleton 'b') emptyDict).1)
        ((add_word myHash (.str "ab") emptyDict).2).char_store).isSome = true :=
  ⟨(c5_word_composition_law myHash "ab" emptyDict).1,
    (c5_word_composition_law myHash "ab" emptyDict).2 'a' (by decide),
    (c5_word_composition_law myHash "ab" emptyDict).2 'b' (by decide)⟩

end ByteDict

namespace ByteDict

section InvLemmas

variable (hash : List Nat → List Nat)

lemma add_char'_word_store (s : String) (st : GlobalDictionary) :
    (add_char' hash s st).2.word_store = st.word_store := by
  simp only [add_char']
  split <;> rfl

lemma add_char'_phrase_store (s : String) (st : GlobalDictionary) :
    (add_char' hash s st).2.phrase_store = st.phrase_store := by
  simp only [add_char']
  split <;> rfl

lemma inv_congr {a b : GlobalDictionary} (hw : a.word_store = b.word_store)
    (hp : a.phrase_store = b.phrase_store) (h : Inv hash b) : Inv hash a :=
  ⟨by rw [hw]; exact h.1, by rw [hp]; exact h.2⟩

lemma inv_add_char' (s : String) (st : GlobalDictionary) (h : Inv hash st) :
    Inv hash (add_char' hash s st).2 :=
  inv_congr hash (add_char'_word_store hash s st)
    (add_char'_phrase_store hash s st) h

lemma charFold_word_store : ∀ (cs : List Char) (hs : List (List Nat))
    (st : GlobalDictionary),
    ((cs.foldl (fun (acc : List (List Nat) × GlobalDictionary) c =>
        let rc := add_char' hash (String.singleton c) acc.2
        (acc.1 ++ [rc.1], rc.2)) (hs, st)).2).word_store = st.word_store := by
  intro cs
  induction cs with
  | nil => intro hs st; rfl
  | cons c t ih =>
    intro hs st
    simp only [List.foldl_cons]
    rw [ih]
    exact add_char'_word_store hash _ st

lemma charFold_phrase_store : ∀ (cs : List Char) (hs : List (List Nat))
    (st : GlobalDictionary),
    ((cs.foldl (fun (acc : List (List Nat) × GlobalDictionary) c =>
        let rc := add_char' hash (String.singleton c) acc.2
        (acc.1 ++ [rc.1], rc.2)) (hs, st)).2).phrase_store = st.phrase_store := by
  intro cs
  induction cs with
  | nil => intro hs st; rfl
  | cons c t ih =>
    intro hs st
    simp only [List.foldl_cons]
    rw [ih]
    exact add_char'_phrase_store hash _ st

lemma add_word'_phrase_store (w : String) (st : GlobalDictionary) :
    (add_word' hash w st).2.phrase_store = st.phrase_store := by
  simp only [add_word']
  split
  · exact charFold_phrase_store hash w.data [] st
  · exact charFold_phrase_store hash w.data [] st

lemma add_word'_word_store_cases (w : String) (st : GlobalDictionary) :
    (add_word' hash w st).2.word_store = st.word_store ∨
      (add_word' hash w st).2.word_store =
        (wordKey hash w, w) :: st.word_store := by
  simp only [add_word']
  split
  · left
    exact charFold_word_store hash w.data [] st
  · right
    show (_, w) :: _ = _
    rw [charFold_word_store hash w.data [] st]
    rw [add_word'_fold_digests]
    simp [wordKey, wordChildren]

lemma inv_add_word' (w : String) (st : GlobalDictionary) (h : Inv hash st) :
    Inv hash (add_word' hash w st).2 := by
  rcases add_word'_word_store_cases hash w st with he | he
  · exact inv_congr hash he (add_word'_phrase_store hash w st) h
  · constructor
    · intro kv hkv
      rw [he] at hkv
      rcases List.mem_cons.mp hkv with rfl | hm
      · rfl
      · exact h.1 kv hm
    · rw [add_word'_phrase_store hash w st]
      exact h.2

lemma tokenFold_phrase_store : ∀ (tks : List String) (hs : List (List Nat))
    (st : GlobalDictionary),
    ((tks.foldl (fun (acc : List (List Nat) × GlobalDictionary) t =>
        let rt := if pyIsAlnum t then add_word' hash t acc.2
                  else add_char' hash t acc.2
        (acc.1 ++ [rt.1], rt.2)) (hs, st)).2).phrase_store = st.phrase_store := by
  intro tks
  induction tks with
  | nil => intro hs st; rfl
  | cons t ts ih =>
    intro hs st
    simp only [List.foldl_cons]
    rw [ih]
    split
    · exact add_word'_phrase_store hash t st
    · exact add_char'_phrase_store hash t st

lemma tokenFold_digests : ∀ (tks : List String) (hs : List (List Nat))
    (st : GlobalDictionary),
    (tks.foldl (fun (acc : List (List Nat) × GlobalDictionary) t =>
        let rt := if pyIsAlnum t then add_word' hash t acc.2
                  else add_char' hash t acc.2
        (acc.1 ++ [rt.1], rt.2)) (hs, st)).1 =
      hs ++ tks.map (tokenKey hash) := by
  intro tks
  induction tks with
  | nil => intro hs st; simp
  | cons t ts ih =>
    intro hs st
    simp only [List.foldl_cons, List.map_cons]
    rw [ih]
    have : (if pyIsAlnum t then add_word' hash t st
        else add_char' hash t st).1 = tokenKey hash t := by
      unfold tokenKey
      split
      · rw [add_word'_fst]
      · rw [add_char'_fst]
    simp only [this]
    simp

lemma tokenFold_inv : ∀ (tks : List String) (hs : List (List Nat))
    (st : GlobalDictionary), Inv hash st →
    Inv hash ((tks.foldl (fun (acc : List (List Nat) × GlobalDictionary) t =>
        let rt := if pyIsAlnum t then add_word' hash t acc.2
                  else add_char' hash t acc.2
        (acc.1 ++ [rt.1], rt.2)) (hs, st)).2) := by
  intro tks
  induction tks with
  | nil => intro hs st h; exact h
  | cons t ts ih =>
    intro hs st h
    simp only [List.foldl_cons]
    apply ih
    split
    · exact inv_add_word' hash t st h
    · exact inv_add_char' hash t st h

lemma inv_add_phrase' (p : String) (st : GlobalDictionary) (h : Inv hash st) :
    Inv hash (add_phrase' hash p st).2 := by
  have hfold := tokenFold_inv hash (findTokens p) [] st h
  simp only [add_phrase']
  split
  · exact hfold
  · constructor
    · exact hfold.1
    · intro kv hkv
      rcases List.mem_cons.mp hkv with rfl | hm
      · show hash _ = phraseKey hash p
        rw [tokenFold_digests]
        simp [phraseKey, phraseChildren]
      · exact hfold.2 kv hm

end InvLemmas

end ByteDict

namespace ByteDict

section InvTokenizer

variable (hash : List Nat → List Nat)

lemma inv_processWord_fold : ∀ (cs : List Char) (hs : List (List Nat))
    (st : GlobalDictionary), Inv hash st →
    Inv hash ((cs.foldl (fun (a : List (List Nat) × GlobalDictionary) c =>
        let char_hash := hash (utf8Char c)
        let st' := if (find? char_hash a.2.char_store).isSome then a.2
                   else (add_char' hash (String.singleton c) a.2).2
        (a.1 ++ [char_hash], st')) (hs, st)).2) := by
  intro cs
  induction cs with
  | nil => intro hs st h; exact h
  | cons c t ih =>
    intro hs st h
    simp only [List.foldl_cons]
    apply ih
    split
    · exact h
    · exact inv_add_char' hash _ st h

lemma inv_processWord (acc : List (List Nat) × GlobalDictionary) (w : String)
    (h : Inv hash acc.2) : Inv hash (processWord hash acc w).2 := by
  simp only [processWord]
  exact inv_add_word' hash w _ (inv_processWord_fold hash w.data [] acc.2 h)

lemma inv_processClause (acc : List (List Nat) × GlobalDictionary) (p : String)
    (h : Inv hash acc.2) : Inv hash (processClause hash acc p).2 := by
  simp only [processClause]
  apply inv_add_phrase'
  have : ∀ (ws : List String) (a : List (List Nat) × GlobalDictionary),
      Inv hash a.2 → Inv hash ((ws.foldl
        (fun a word => processWord hash a word) a).2) := by
    intro ws
    induction ws with
    | nil => intro a ha; exact ha
    | cons w ws ih =>
      intro a ha
      simp only [List.foldl_cons]
      exact ih _ (inv_processWord hash a w ha)
  exact this _ _ h

lemma inv_processSentence (acc : List (List Nat) × GlobalDictionary)
    (s : String) (h : Inv hash acc.2) :
    Inv hash (processSentence hash acc s).2 := by
  simp only [processSentence]
  split
  · exact h
  · apply inv_add_phrase'
    have : ∀ (ps : List String) (a : List (List Nat) × GlobalDictionary),
        Inv hash a.2 → Inv hash ((ps.foldl
          (fun a phrase => processClause hash a phrase) a).2) := by
      intro ps
      induction ps with
      | nil => intro a ha; exact ha
      | cons p ps ih =>
        intro a ha
        simp only [List.foldl_cons]
        exact ih _ (inv_processClause hash a p ha)
    exact this _ _ h

lemma inv_tokenize_and_embed (v : PyVal) (st : GlobalDictionary)
    (h : Inv hash st) : Inv hash (tokenize_and_embed hash v st).2 := by
  simp only [tokenize_and_embed]
  cases hv : ensure_str v with
  | error e => exact h
  | ok text =>
    show Inv hash ((splitSentences text).foldl _ ([], st)).2
    have : ∀ (ss : List String) (a : List (List Nat) × GlobalDictionary),
        Inv hash a.2 → Inv hash ((ss.foldl
          (fun a sentence => processSentence hash a sentence) a).2) := by
      intro ss
      induction ss with
      | nil => intro a ha; exact ha
      | cons s ss ih =>
        intro a ha
        simp only [List.foldl_cons]
        exact ih _ (inv_processSentence hash a s ha)
    exact this _ _ h

lemma inv_add_char (v : PyVal) (st : GlobalDictionary) (h : Inv hash st) :
    Inv hash (add_char hash v st).2 := by
  simp only [add_char]
  cases ensure_bytes v with
  | error e => exact h
  | ok bs =>
    cases ensure_str v with
    | error e => exact h
    | ok c =>
      show Inv hash (if _ then _ else _ : _ × GlobalDictionary).2
      split
      · exact h
      · exact ⟨h.1, h.2⟩

lemma inv_add_word (v : PyVal) (st : GlobalDictionary) (h : Inv hash st) :
    Inv hash (add_word hash v st).2 := by
  simp only [add_word]
  cases ensure_str v with
  | error e => exact h
  | ok w => exact inv_add_word' hash w st h

lemma inv_add_phrase (v : PyVal) (st : GlobalDictionary) (h : Inv hash st) :
    Inv hash (add_phrase hash v st).2 := by
  simp only [add_phrase]
  cases ensure_str v with
  | error e => exact h
  | ok p => exact inv_add_phrase' hash p st h

lemma inv_reachable (st : GlobalDictionary) (h : Reachable hash st) :
    Inv hash st := by
  induction h with
  | init => exact ⟨fun kv hkv => absurd hkv (List.not_mem_nil kv),
      fun kv hkv => absurd hkv (List.not_mem_nil kv)⟩
  | char v st' _ ih => exact inv_add_char hash v st' ih
  | word v st' _ ih => exact inv_add_word hash v st' ih
  | phrase v st' _ ih => exact inv_add_phrase hash v st' ih
  | tok v st' _ ih => exact inv_tokenize_and_embed hash v st' ih

end InvTokenizer

/-! ### C4: digest composition invariant -/

/-- C4 counterexample: `insertWord("")` is a public operation, and it files
the empty word under `hash("")` — the hash of the concatenation of zero
child digests, which is also exactly the hash of the unit's own raw text
bytes.  So a reachable store has a word-mapping entry keyed by the hash of
its payload's raw text, contradicting the claim's "never". -/
theorem c4_counterexample :
    Reachable myHash c4Store ∧
      find? (myHash (utf8Str "")) c4Store.word_store = some "" := by
  constructor
  · exact Reachable.word (.str "") emptyDict Reachable.init
  · simp [c4Store, add_word, add_word', ensure_str, emptyDict, utf8Str]

/-- C4 (amended): in every reachable store state, every word-mapping entry
is keyed by the hash of the concatenated digests of its characters and
every phrase-mapping entry by the hash of the concatenated digests of its
word/character tokens; for an injective hash, such a key can also be the
hash of the unit's own raw text bytes only in the degenerate case where the
concatenated child digests are equal to those raw bytes (as for the empty
unit). -/
theorem c4_composition_invariant (hash : List Nat → List Nat)
    (HInj : Function.Injective hash) (st : GlobalDictionary)
    (hst : Reachable hash st) :
    (∀ kv ∈ st.word_store, kv.1 = wordKey hash kv.2 ∧
        (kv.1 = hash (utf8Str kv.2) → wordChildren hash kv.2 = utf8Str kv.2)) ∧
    (∀ kv ∈ st.phrase_store, kv.1 = phraseKey hash kv.2 ∧
        (kv.1 = hash (utf8Str kv.2) →
          phraseChildren hash kv.2 = utf8Str kv.2)) := by
  have hInv := inv_reachable hash st hst
  constructor
  · intro kv hkv
    refine ⟨hInv.1 kv hkv, fun hraw => HInj ?_⟩
    rw [← hraw]
    exact (hInv.1 kv hkv).symm
  · intro kv hkv
    refine ⟨hInv.2 kv hkv, fun hraw => HInj ?_⟩
    rw [← hraw]
    exact (hInv.2 kv hkv).symm

theorem c4_composition_invariant_witness :
    myHash (utf8Str "") = wordKey myHash "" ∧
      (myHash (utf8Str "") = myHash (utf8Str "") →
        wordChildren myHash "" = utf8Str "") :=
  (c4_composition_invariant myHash myHash_injective c4Store
    (Reachable.word (.str "") emptyDict Reachable.init)).1
    (myHash (utf8Str ""), "") (List.Mem.head _)

end ByteDict


namespace ByteDict

lemma lastSlice_one_single (x : α) : lastSlice 1 [x] = [x] := rfl

lemma lastSlice_one_pair (x y : α) : lastSlice 1 [x, y] = [y] := rfl

lemma lastSlice_two_pair (x y : α) : lastSlice 2 [x, y] = [x, y] := rfl

lemma lastSlice_one_triple (x y z : α) : lastSlice 1 [x, y, z] = [z] := rfl

lemma lastSlice_two_six (a b c d e f : α) :
    lastSlice 2 [a, b, c, d, e, f] = [e, f] := rfl

lemma lastSlice_one_seven (a b c d e f g : α) :
    lastSlice 1 [a, b, c, d, e, f, g] = [g] := rfl

lemma emptyDict_char_store : emptyDict.char_store = [] := rfl

lemma emptyDict_word_store : emptyDict.word_store = [] := rfl

lemma emptyDict_phrase_store : emptyDict.phrase_store = [] := rfl

section RunH

variable (hash : List Nat → List Nat)

lemma processWord_H_fresh :
    processWord hash ([], emptyDict) "H" =
      ([hash (hash [72])],
        ⟨[(hash [72], "H")], [(hash (hash [72]), "H")], [], []⟩) := by
  have h5 : utf8Str "H" = [72] := by decide
  have h6 : "H".data = ['H'] := rfl
  have h7 : utf8Char 'H' = [72] := by decide
  have h8 : String.singleton 'H' = "H" := rfl
  simp only [processWord, add_char', add_word', emptyDict, utf8Str_singleton,
    h5, h6, h7, h8, find?_nil, find?_cons, List.foldl_cons, List.foldl_nil,
    Option.isSome_none, Option.isSome_some, Bool.false_eq_true,
    if_true, if_false, eq_self_iff_true, ite_true, ite_false,
    List.flatten_cons, List.flatten_nil, List.append_nil, List.nil_append]

lemma add_phrase'_H_first :
    add_phrase' hash "H"
        ⟨[(hash [72], "H")], [(hash (hash [72]), "H")], [], []⟩ =
      (hash (hash (hash [72])),
        ⟨[(hash [72], "H")], [(hash (hash [72]), "H")],
          [(hash (hash (hash [72])), "H")], []⟩) := by
  have h3 : findTokens "H" = ["H"] := by decide
  have h4 : pyIsAlnum "H" = true := by decide
  have h5 : utf8Str "H" = [72] := by decide
  have h6 : "H".data = ['H'] := rfl
  have h7 : utf8Char 'H' = [72] := by decide
  have h8 : String.singleton 'H' = "H" := rfl
  simp only [add_phrase', add_word', add_char', utf8Str_singleton,
    h3, h4, h5, h6, h7, h8, find?_nil, find?_cons, List.foldl_cons,
    List.foldl_nil, Option.isSome_none, Option.isSome_some,
    Bool.false_eq_true, if_true, if_false, eq_self_iff_true, ite_true,
    ite_false, List.flatten_cons, List.flatten_nil, List.append_nil,
    List.nil_append]

lemma processClause_H_fresh :
    processClause hash ([], emptyDict) "H" =
      ([hash (hash [72]), hash (hash (hash [72]))],
        ⟨[(hash [72], "H")], [(hash (hash [72]), "H")],
          [(hash (hash (hash [72])), "H")], []⟩) := by
  have h3 : findTokens "H" = ["H"] := by decide
  have h5 : utf8Str "H" = [72] := by decide
  simp only [processClause, h3, h5, emptyDict_word_store, find?_nil,
    Option.isSome_none, Bool.false_eq_true, if_false, List.foldl_cons,
    List.foldl_nil, List.append_nil, List.nil_append, List.length_cons,
    List.length_nil, Nat.zero_add, processWord_H_fresh, add_phrase'_H_first,
    lastSlice_one_single, List.flatten_cons, List.flatten_nil,
    List.cons_append, List.singleton_append]

lemma processSentence_H_fresh :
    processSentence hash ([], emptyDict) "H" =
      ([hash (hash [72]), hash (hash (hash [72])),
        hash (hash (hash (hash [72])))], hStore hash) := by
  have h2 : splitClauses "H" = ["H"] := by decide
  have h5 : utf8Str "H" = [72] := by decide
  have hap : add_phrase' hash "H"
      ⟨[(hash [72], "H")], [(hash (hash [72]), "H")],
        [(hash (hash (hash [72])), "H")], []⟩ =
      (hash (hash (hash [72])),
        ⟨[(hash [72], "H")], [(hash (hash [72]), "H")],
          [(hash (hash (hash [72])), "H")], []⟩) := by
    have h3 : findTokens "H" = ["H"] := by decide
    have h4 : pyIsAlnum "H" = true := by decide
    have h6 : "H".data = ['H'] := rfl
    have h7 : utf8Char 'H' = [72] := by decide
    have h8 : String.singleton 'H' = "H" := rfl
    simp only [add_phrase', add_word', add_char', utf8Str_singleton,
      h3, h4, h5, h6, h7, h8, find?_nil, find?_cons, List.foldl_cons,
      List.foldl_nil, Option.isSome_none, Option.isSome_some,
      Bool.false_eq_true, if_true, if_false, eq_self_iff_true, ite_true,
      ite_false, List.flatten_cons, List.flatten_nil, List.append_nil,
      List.nil_append]
  simp only [processSentence, h2, h5, emptyDict_phrase_store, hStore,
    find?_nil, Option.isSome_none, Bool.false_eq_true, if_false,
    List.foldl_cons, List.foldl_nil, List.append_nil, List.nil_append,
    List.length_cons, List.length_nil, Nat.zero_add,
    processClause_H_fresh, hap, lastSlice_one_pair,
    List.flatten_cons, List.flatten_nil, List.cons_append,
    List.singleton_append]

lemma run_H_fresh :
    tokenize_and_embed hash (.str "H") emptyDict =
      (.ok [hash (hash [72]), hash (hash (hash [72])),
        hash (hash (hash (hash [72])))], hStore hash) := by
  have h1 : splitSentences "H" = ["H"] := by decide
  simp only [tokenize_and_embed, ensure_str, h1, List.foldl_cons,
    List.foldl_nil, processSentence_H_fresh]

end RunH

end ByteDict

namespace ByteDict

section RunH2

variable (hash : List Nat → List Nat)

lemma hStore_char_store : (hStore hash).char_store = [(hash [72], "H")] := rfl

lemma hStore_word_store :
    (hStore hash).word_store = [(hash (hash [72]), "H")] := rfl

lemma hStore_phrase_store :
    (hStore hash).phrase_store = [(hash (hash (hash [72])), "H")] := rfl

lemma processWord_H_again :
    processWord hash ([], hStore hash) "H" =
      ([hash (hash [72])], hStore hash) := by
  have h5 : utf8Str "H" = [72] := by decide
  have h6 : "H".data = ['H'] := rfl
  have h7 : utf8Char 'H' = [72] := by decide
  have h8 : String.singleton 'H' = "H" := rfl
  simp only [processWord, add_char', add_word', hStore, utf8Str_singleton,
    h5, h6, h7, h8, find?_nil, find?_cons, List.foldl_cons, List.foldl_nil,
    Option.isSome_none, Option.isSome_some, Bool.false_eq_true,
    if_true, if_false, eq_self_iff_true, ite_true, ite_false,
    List.flatten_cons, List.flatten_nil, List.append_nil, List.nil_append]

lemma add_phrase'_H_again :
    add_phrase' hash "H" (hStore hash) =
      (hash (hash (hash [72])), hStore hash) := by
  have h3 : findTokens "H" = ["H"] := by decide
  have h4 : pyIsAlnum "H" = true := by decide
  have h5 : utf8Str "H" = [72] := by decide
  have h6 : "H".data = ['H'] := rfl
  have h7 : utf8Char 'H' = [72] := by decide
  have h8 : String.singleton 'H' = "H" := rfl
  simp only [add_phrase', add_word', add_char', hStore, utf8Str_singleton,
    h3, h4, h5, h6, h7, h8, find?_nil, find?_cons, List.foldl_cons,
    List.foldl_nil, Option.isSome_none, Option.isSome_some,
    Bool.false_eq_true, if_true, if_false, eq_self_iff_true, ite_true,
    ite_false, List.flatten_cons, List.flatten_nil, List.append_nil,
    List.nil_append]

lemma processClause_H_again (HInj : Function.Injective hash)
    (HLen : ∀ bs, (hash bs).length = 32) :
    processClause hash ([], hStore hash) "H" =
      ([hash (hash [72]), hash (hash (hash [72]))], hStore hash) := by
  have h3 : findTokens "H" = ["H"] := by decide
  have h5 : utf8Str "H" = [72] := by decide
  have n2 : ¬(hash (hash [72]) = hash [72]) :=
    hash_ne HInj (ne_of_length_ne (by simp [HLen]))
  simp only [processClause, h3, h5, hStore_word_store, find?_nil, find?_cons,
    n2, Option.isSome_none, Option.isSome_some, Bool.false_eq_true,
    if_true, if_false, eq_self_iff_true, ite_true, ite_false,
    List.foldl_cons, List.foldl_nil, List.append_nil, List.nil_append,
    List.length_cons, List.length_nil, Nat.zero_add,
    processWord_H_again, add_phrase'_H_again,
    lastSlice_one_single, List.flatten_cons, List.flatten_nil,
    List.cons_append, List.singleton_append]

lemma processSentence_H_again (HInj : Function.Injective hash)
    (HLen : ∀ bs, (hash bs).length = 32) :
    processSentence hash ([], hStore hash) "H" =
      ([hash (hash [72]), hash (hash (hash [72])),
        hash (hash (hash (hash [72])))], hStore hash) := by
  have h2 : splitClauses "H" = ["H"] := by decide
  have h5 : utf8Str "H" = [72] := by decide
  have n1 : ¬(hash (hash (hash [72])) = hash [72]) :=
    hash_ne HInj (ne_of_length_ne (by simp [HLen]))
  simp only [processSentence, h2, h5, hStore_phrase_store, find?_nil,
    find?_cons, n1, Option.isSome_none, Option.isSome_some,
    Bool.false_eq_true, if_true, if_false, eq_self_iff_true, ite_true,
    ite_false, List.foldl_cons, List.foldl_nil, List.append_nil,
    List.nil_append, List.length_cons, List.length_nil, Nat.zero_add,
    processClause_H_again hash HInj HLen, add_phrase'_H_again,
    lastSlice_one_pair, List.flatten_cons, List.flatten_nil,
    List.cons_append, List.singleton_append]

lemma run_H_again (HInj : Function.Injective hash)
    (HLen : ∀ bs, (hash bs).length = 32) :
    tokenize_and_embed hash (.str "H") (hStore hash) =
      (.ok [hash (hash [72]), hash (hash (hash [72])),
        hash (hash (hash (hash [72])))], hStore hash) := by
  have h1 : splitSentences "H" = ["H"] := by decide
  simp only [tokenize_and_embed, ensure_str, h1, List.foldl_cons,
    List.foldl_nil, processSentence_H_again hash HInj HLen]

end RunH2

/-! ### C1: the memoized skip never fires on a repeat call -/

/-- C1: calling `tokenize_and_embed` twice on the single-sentence text
`"H"` against the same store does NOT produce a memoized skip: the phrase
mapping after the first call is keyed by the composite digest
`hash(hash(hash("H" bytes)))`, not by the raw-text digest `hash("H" bytes)`
the second call probes with, so the probe misses and the second call
re-decomposes, returning three digests instead of the single digest the
claim requires. -/
theorem c1_second_call_not_memoized (hash : List Nat → List Nat)
    (HInj : Function.Injective hash)
    (HLen : ∀ bs, (hash bs).length = 32) :
    find? (hash (utf8Str "H"))
        ((tokenize_and_embed hash (.str "H") emptyDict).2).phrase_store = none ∧
    (tokenize_and_embed hash (.str "H")
        ((tokenize_and_embed hash (.str "H") emptyDict).2)).1 =
      .ok [hash (hash [72]), hash (hash (hash [72])),
        hash (hash (hash (hash [72])))] := by
  have h5 : utf8Str "H" = [72] := by decide
  have n1 : ¬(hash (hash (hash [72])) = hash [72]) :=
    hash_ne HInj (ne_of_length_ne (by simp [HLen]))
  rw [run_H_fresh]
  constructor
  · simp only [hStore_phrase_store, find?_cons, find?_nil, h5, n1, if_false]
  · rw [show ((Except.ok [hash (hash [72]), hash (hash (hash [72])),
      hash (hash (hash (hash [72])))], hStore hash) :
        Except PyError (List (List Nat)) × GlobalDictionary).2 = hStore hash
      from rfl]
    rw [run_H_again hash HInj HLen]

theorem c1_second_call_not_memoized_witness :
    find? (myHash (utf8Str "H"))
        ((tokenize_and_embed myHash (.str "H") emptyDict).2).phrase_store = none ∧
    (tokenize_and_embed myHash (.str "H")
        ((tokenize_and_embed myHash (.str "H") emptyDict).2)).1 =
      .ok [myHash (myHash [72]), myHash (myHash (myHash [72])),
        myHash (myHash (myHash (myHash [72])))] :=
  c1_second_call_not_memoized myHash myHash_injective myHash_length

/-! ### C3: appended composite digests differ from the registered ones -/

/-- C3: on the single-sentence input `"H"` from a fresh store, the
tokenizer appends `hash(hash(hash(hash("H"))))` as the sentence's digest,
but `insertPhrase("H")` registers (and returns) the different digest
`hash(hash(hash("H")))`; the appended sentence digest is not a key of the
phrase mapping at all, refuting the claimed equality for sentences. -/
theorem c3_sentence_digest_mismatch (hash : List Nat → List Nat)
    (HInj : Function.Injective hash)
    (HLen : ∀ bs, (hash bs).length = 32) :
    (tokenize_and_embed hash (.str "H") emptyDict).1 =
      .ok [hash (hash [72]), hash (hash (hash [72])),
        hash (hash (hash (hash [72])))] ∧
    (add_phrase hash (.str "H")
        ((tokenize_and_embed hash (.str "H") emptyDict).2)).1 =
      .ok (hash (hash (hash [72]))) ∧
    hash (hash (hash (hash [72]))) ≠ hash (hash (hash [72])) ∧
    find? (hash (hash (hash (hash [72]))))
        ((tokenize_and_embed hash (.str "H") emptyDict).2).phrase_store =
      none := by
  have nsc : hash (hash (hash (hash [72]))) ≠ hash (hash (hash [72])) :=
    hash_ne HInj (hash_ne HInj (hash_ne HInj
      (ne_of_length_ne (by simp [HLen]))))
  rw [run_H_fresh]
  refine ⟨rfl, ?_, nsc, ?_⟩
  · show (add_phrase hash (.str "H") (hStore hash)).1 = _
    simp only [add_phrase, ensure_str, add_phrase'_H_again]
  · have nsc2 : ¬(hash (hash (hash [72])) = hash (hash (hash (hash [72])))) :=
      fun e => nsc e.symm
    simp only [hStore_phrase_store, find?_cons, find?_nil, nsc2, if_false]

theorem c3_sentence_digest_mismatch_witness :
    (tokenize_and_embed myHash (.str "H") emptyDict).1 =
      .ok [myHash (myHash [72]), myHash (myHash (myHash [72])),
        myHash (myHash (myHash (myHash [72])))] ∧
    (add_phrase myHash (.str "H")
        ((tokenize_and_embed myHash (.str "H") emptyDict).2)).1 =
      .ok (myHash (myHash (myHash [72]))) ∧
    myHash (myHash (myHash (myHash [72]))) ≠ myHash (myHash (myHash [72])) ∧
    find? (myHash (myHash (myHash (myHash [72]))))
        ((tokenize_and_embed myHash (.str "H") emptyDict).2).phrase_store =
      none :=
  c3_sentence_digest_mismatch myHash myHash_injective myHash_length

end ByteDict

namespace ByteDict

section DiseqHelpers

variable (hash : List Nat → List Nat)

lemma hash_single_ne (HInj : Function.Injective hash) {a b : Nat}
    (h : a ≠ b) : ¬(hash [a] = hash [b]) :=
  hash_ne HInj (by simp [h])

lemma hash_hash_single_ne (HInj : Function.Injective hash) {a b : Nat}
    (h : a ≠ b) : ¬(hash (hash [a]) = hash (hash [b])) :=
  hash_ne HInj (hash_ne HInj (by simp [h]))

lemma hash_len_ne (HInj : Function.Injective hash) {x y : List Nat}
    (h : x.length ≠ y.length) : ¬(hash x = hash y) :=
  hash_ne HInj (ne_of_length_ne h)

end DiseqHelpers

lemma lastSlice_append_one (l : List α) (x : α) :
    lastSlice 1 (l ++ [x]) = [x] := by
  simp only [lastSlice, List.length_append, List.length_cons, List.length_nil]
  rw [if_neg (by decide : ¬(1 = 0))]
  rw [show l.length + (0 + 1) - 1 = l.length by omega]
  exact List.drop_left l [x]

lemma lastSlice_append_two (l : List α) (x y : α) :
    lastSlice 2 (l ++ [x, y]) = [x, y] := by
  simp only [lastSlice, List.length_append, List.length_cons, List.length_nil]
  rw [if_neg (by decide : ¬(2 = 0))]
  rw [show l.length + (0 + 1 + 1) - 2 = l.length by omega]
  exact List.drop_left l [x, y]

lemma lastSlice_append_three (l : List α) (x y z : α) :
    lastSlice 1 (l ++ [x, y, z]) = [z] := by
  rw [show l ++ [x, y, z] = (l ++ [x, y]) ++ [z] by simp]
  exact lastSlice_append_one (l ++ [x, y]) z

end ByteDict

namespace ByteDict

section RunHiBye

variable (hash : List Nat → List Nat)

/- Abbreviations used in the statements below (UTF-8 bytes):
   "H" = 72, "i" = 105, "." = 46, "B" = 66, "y" = 121, "e" = 101, "!" = 33.
   cwHi = hash (hash [72] ++ hash [105]), cwdot = hash (hash [46]),
   cwBye = hash (hash [66] ++ (hash [121] ++ hash [101])),
   cwbang = hash (hash [33]),
   A1 = hash (cwHi ++ hash [46]), A2 = hash (cwBye ++ hash [33]). -/

lemma processWord_Hi (HInj : Function.Injective hash)
    (tks : List (List Nat)) :
    processWord hash (tks, emptyDict) "Hi" =
      (tks ++ [hash (hash [72] ++ hash [105])],
        ⟨[(hash [105], "i"), (hash [72], "H")],
          [(hash (hash [72] ++ hash [105]), "Hi")], [], []⟩) := by
  have h6 : "Hi".data = ['H', 'i'] := rfl
  have h7 : utf8Char 'H' = [72] := by decide
  have h7i : utf8Char 'i' = [105] := by decide
  have h8 : String.singleton 'H' = "H" := rfl
  have h8i : String.singleton 'i' = "i" := rfl
  have u1 : utf8Str "H" = [72] := by decide
  have u2 : utf8Str "i" = [105] := by decide
  have n1 : ¬(hash [72] = hash [105]) := hash_single_ne hash HInj (by decide)
  have n2 : ¬(hash [105] = hash [72]) := hash_single_ne hash HInj (by decide)
  simp only [processWord, add_char', add_word', emptyDict, utf8Str_singleton,
    h6, h7, h7i, h8, h8i, u1, u2, n1, n2,
    find?_nil, find?_cons, List.foldl_cons, List.foldl_nil,
    Option.isSome_none, Option.isSome_some, Bool.false_eq_true,
    if_true, if_false, eq_self_iff_true, ite_true, ite_false,
    List.flatten_cons, List.flatten_nil, List.append_nil, List.nil_append,
    List.cons_append, List.singleton_append, List.append_assoc]


lemma processWord_dot (HInj : Function.Injective hash)
    (HLen : ∀ bs, (hash bs).length = 32) (tks : List (List Nat)) :
    processWord hash
        (tks, ⟨[(hash [105], "i"), (hash [72], "H")],
          [(hash (hash [72] ++ hash [105]), "Hi")], [], []⟩) "." =
      (tks ++ [hash (hash [46])],
        ⟨[(hash [46], "."), (hash [105], "i"), (hash [72], "H")],
          [(hash (hash [46]), "."), (hash (hash [72] ++ hash [105]), "Hi")],
          [], []⟩) := by
  have h6 : ".".data = ['.'] := rfl
  have h7 : utf8Char '.' = [46] := by decide
  have h8 : String.singleton '.' = "." := rfl
  have u1 : utf8Str "." = [46] := by decide
  have n1 : ¬(hash [105] = hash [46]) := hash_single_ne hash HInj (by decide)
  have n2 : ¬(hash [72] = hash [46]) := hash_single_ne hash HInj (by decide)
  have nw1 : ¬(hash (hash [72] ++ hash [105]) = hash (hash [46])) :=
    hash_len_ne hash HInj (by simp [HLen])
  simp only [processWord, add_char', add_word', utf8Str_singleton,
    h6, h7, h8, u1, n1, n2, nw1,
    find?_nil, find?_cons, List.foldl_cons, List.foldl_nil,
    Option.isSome_none, Option.isSome_some, Bool.false_eq_true,
    if_true, if_false, eq_self_iff_true, ite_true, ite_false,
    List.flatten_cons, List.flatten_nil, List.append_nil, List.nil_append,
    List.cons_append, List.singleton_append, List.append_assoc]

lemma add_phrase'_HiDot (HInj : Function.Injective hash)
    (HLen : ∀ bs, (hash bs).length = 32) :
    add_phrase' hash "Hi."
        ⟨[(hash [46], "."), (hash [105], "i"), (hash [72], "H")],
          [(hash (hash [46]), "."), (hash (hash [72] ++ hash [105]), "Hi")],
          [], []⟩ =
      (hash (hash (hash [72] ++ hash [105]) ++ hash [46]),
        ⟨[(hash [46], "."), (hash [105], "i"), (hash [72], "H")],
          [(hash (hash [46]), "."), (hash (hash [72] ++ hash [105]), "Hi")],
          [(hash (hash (hash [72] ++ hash [105]) ++ hash [46]), "Hi.")],
          []⟩) := by
  have h3 : findTokens "Hi." = ["Hi", "."] := by decide
  have h4 : pyIsAlnum "Hi" = true := by decide
  have h4d : pyIsAlnum "." = false := by decide
  have h6 : "Hi".data = ['H', 'i'] := rfl
  have h7 : utf8Char 'H' = [72] := by decide
  have h7i : utf8Char 'i' = [105] := by decide
  have h8 : String.singleton 'H' = "H" := rfl
  have h8i : String.singleton 'i' = "i" := rfl
  have u1 : utf8Str "H" = [72] := by decide
  have u2 : utf8Str "i" = [105] := by decide
  have u3 : utf8Str "." = [46] := by decide
  have n1 : ¬(hash [46] = hash [72]) := hash_single_ne hash HInj (by decide)
  have n2 : ¬(hash [105] = hash [72]) := hash_single_ne hash HInj (by decide)
  have n3 : ¬(hash [46] = hash [105]) := hash_single_ne hash HInj (by decide)
  have nw2 : ¬(hash (hash [46]) = hash (hash [72] ++ hash [105])) :=
    hash_len_ne hash HInj (by simp [HLen])
  simp only [add_phrase', add_word', add_char', utf8Str_singleton,
    h3, h4, h4d, h6, h7, h7i, h8, h8i, u1, u2, u3, n1, n2, n3, nw2,
    find?_nil, find?_cons, List.foldl_cons, List.foldl_nil,
    Option.isSome_none, Option.isSome_some, Bool.false_eq_true,
    if_true, if_false, eq_self_iff_true, ite_true, ite_false,
    List.flatten_cons, List.flatten_nil, List.append_nil, List.nil_append,
    List.cons_append, List.singleton_append, List.append_assoc]

lemma add_phrase'_HiDot_again (HInj : Function.Injective hash)
    (HLen : ∀ bs, (hash bs).length = 32) :
    add_phrase' hash "Hi."
        ⟨[(hash [46], "."), (hash [105], "i"), (hash [72], "H")],
          [(hash (hash [46]), "."), (hash (hash [72] ++ hash [105]), "Hi")],
          [(hash (hash (hash [72] ++ hash [105]) ++ hash [46]), "Hi.")],
          []⟩ =
      (hash (hash (hash [72] ++ hash [105]) ++ hash [46]),
        ⟨[(hash [46], "."), (hash [105], "i"), (hash [72], "H")],
          [(hash (hash [46]), "."), (hash (hash [72] ++ hash [105]), "Hi")],
          [(hash (hash (hash [72] ++ hash [105]) ++ hash [46]), "Hi.")],
          []⟩) := by
  have h3 : findTokens "Hi." = ["Hi", "."] := by decide
  have h4 : pyIsAlnum "Hi" = true := by decide
  have h4d : pyIsAlnum "." = false := by decide
  have h6 : "Hi".data = ['H', 'i'] := rfl
  have h7 : utf8Char 'H' = [72] := by decide
  have h7i : utf8Char 'i' = [105] := by decide
  have h8 : String.singleton 'H' = "H" := rfl
  have h8i : String.singleton 'i' = "i" := rfl
  have u1 : utf8Str "H" = [72] := by decide
  have u2 : utf8Str "i" = [105] := by decide
  have u3 : utf8Str "." = [46] := by decide
  have n1 : ¬(hash [46] = hash [72]) := hash_single_ne hash HInj (by decide)
  have n2 : ¬(hash [105] = hash [72]) := hash_single_ne hash HInj (by decide)
  have n3 : ¬(hash [46] = hash [105]) := hash_single_ne hash HInj (by decide)
  have nw2 : ¬(hash (hash [46]) = hash (hash [72] ++ hash [105])) :=
    hash_len_ne hash HInj (by simp [HLen])
  simp only [add_phrase', add_word', add_char', utf8Str_singleton,
    h3, h4, h4d, h6, h7, h7i, h8, h8i, u1, u2, u3, n1, n2, n3, nw2,
    find?_nil, find?_cons, List.foldl_cons, List.foldl_nil,
    Option.isSome_none, Option.isSome_some, Bool.false_eq_true,
    if_true, if_false, eq_self_iff_true, ite_true, ite_false,
    List.flatten_cons, List.flatten_nil, List.append_nil, List.nil_append,
    List.cons_append, List.singleton_append, List.append_assoc]

lemma processClause_HiDot (HInj : Function.Injective hash)
    (HLen : ∀ bs, (hash bs).length = 32) (tks : List (List Nat)) :
    processClause hash (tks, emptyDict) "Hi." =
      (tks ++ [hash (hash [72] ++ hash [105]), hash (hash [46]),
        hash (hash (hash [72] ++ hash [105]) ++ hash (hash [46]))],
        ⟨[(hash [46], "."), (hash [105], "i"), (hash [72], "H")],
          [(hash (hash [46]), "."), (hash (hash [72] ++ hash [105]), "Hi")],
          [(hash (hash (hash [72] ++ hash [105]) ++ hash [46]), "Hi.")],
          []⟩) := by
  have h3 : findTokens "Hi." = ["Hi", "."] := by decide
  have hl : (["Hi", "."] : List String).length = 2 := rfl
  have u1 : utf8Str "Hi" = [72, 105] := by decide
  have u2 : utf8Str "." = [46] := by decide
  simp only [processClause, h3, hl, u1, u2, emptyDict_word_store,
    processWord_Hi hash HInj, processWord_dot hash HInj HLen,
    add_phrase'_HiDot hash HInj HLen, lastSlice_append_two,
    find?_nil, find?_cons, List.foldl_cons, List.foldl_nil,
    Option.isSome_none, Option.isSome_some, Bool.false_eq_true,
    if_true, if_false, eq_self_iff_true, ite_true, ite_false,
    List.flatten_cons, List.flatten_nil, List.append_nil, List.nil_append,
    List.cons_append, List.singleton_append, List.append_assoc]

lemma processSentence_HiDot (HInj : Function.Injective hash)
    (HLen : ∀ bs, (hash bs).length = 32) (tks : List (List Nat)) :
    processSentence hash (tks, emptyDict) "Hi." =
      (tks ++ [hash (hash [72] ++ hash [105]), hash (hash [46]),
        hash (hash (hash [72] ++ hash [105]) ++ hash (hash [46])),
        hash (hash (hash (hash [72] ++ hash [105]) ++ hash (hash [46])))],
        ⟨[(hash [46], "."), (hash [105], "i"), (hash [72], "H")],
          [(hash (hash [46]), "."), (hash (hash [72] ++ hash [105]), "Hi")],
          [(hash (hash (hash [72] ++ hash [105]) ++ hash [46]), "Hi.")],
          []⟩) := by
  have h2 : splitClauses "Hi." = ["Hi."] := by decide
  have hl : (["Hi."] : List String).length = 1 := rfl
  have u3 : utf8Str "Hi." = [72, 105, 46] := by decide
  simp only [processSentence, h2, hl, u3, emptyDict_phrase_store,
    processClause_HiDot hash HInj HLen,
    add_phrase'_HiDot_again hash HInj HLen, lastSlice_append_three,
    find?_nil, find?_cons, List.foldl_cons, List.foldl_nil,
    Option.isSome_none, Option.isSome_some, Bool.false_eq_true,
    if_true, if_false, eq_self_iff_true, ite_true, ite_false,
    List.flatten_cons, List.flatten_nil, List.append_nil, List.nil_append,
    List.cons_append, List.singleton_append, List.append_assoc]


lemma processWord_Bye (HInj : Function.Injective hash)
    (HLen : ∀ bs, (hash bs).length = 32) (tks : List (List Nat)) :
    processWord hash
        (tks, ⟨[(hash [46], "."), (hash [105], "i"), (hash [72], "H")],
          [(hash (hash [46]), "."), (hash (hash [72] ++ hash [105]), "Hi")],
          [(hash (hash (hash [72] ++ hash [105]) ++ hash [46]), "Hi.")],
          []⟩) "Bye" =
      (tks ++ [hash (hash [66] ++ (hash [121] ++ hash [101]))],
        ⟨[(hash [101], "e"), (hash [121], "y"), (hash [66], "B"),
            (hash [46], "."), (hash [105], "i"), (hash [72], "H")],
          [(hash (hash [66] ++ (hash [121] ++ hash [101])), "Bye"),
            (hash (hash [46]), "."), (hash (hash [72] ++ hash [105]), "Hi")],
          [(hash (hash (hash [72] ++ hash [105]) ++ hash [46]), "Hi.")],
          []⟩) := by
  have h6 : "Bye".data = ['B', 'y', 'e'] := rfl
  have h7B : utf8Char 'B' = [66] := by decide
  have h7y : utf8Char 'y' = [121] := by decide
  have h7e : utf8Char 'e' = [101] := by decide
  have h8B : String.singleton 'B' = "B" := rfl
  have h8y : String.singleton 'y' = "y" := rfl
  have h8e : String.singleton 'e' = "e" := rfl
  have u1 : utf8Str "B" = [66] := by decide
  have u2 : utf8Str "y" = [121] := by decide
  have u3 : utf8Str "e" = [101] := by decide
  have n1 : ¬(hash [46] = hash [66]) := hash_single_ne hash HInj (by decide)
  have n2 : ¬(hash [105] = hash [66]) := hash_single_ne hash HInj (by decide)
  have n3 : ¬(hash [72] = hash [66]) := hash_single_ne hash HInj (by decide)
  have n4 : ¬(hash [66] = hash [121]) := hash_single_ne hash HInj (by decide)
  have n5 : ¬(hash [46] = hash [121]) := hash_single_ne hash HInj (by decide)
  have n6 : ¬(hash [105] = hash [121]) := hash_single_ne hash HInj (by decide)
  have n7 : ¬(hash [72] = hash [121]) := hash_single_ne hash HInj (by decide)
  have n8 : ¬(hash [121] = hash [101]) := hash_single_ne hash HInj (by decide)
  have n9 : ¬(hash [66] = hash [101]) := hash_single_ne hash HInj (by decide)
  have n10 : ¬(hash [46] = hash [101]) := hash_single_ne hash HInj (by decide)
  have n11 : ¬(hash [105] = hash [101]) := hash_single_ne hash HInj (by decide)
  have n12 : ¬(hash [72] = hash [101]) := hash_single_ne hash HInj (by decide)
  have n13 : ¬(hash [101] = hash [66]) := hash_single_ne hash HInj (by decide)
  have n14 : ¬(hash [121] = hash [66]) := hash_single_ne hash HInj (by decide)
  have n15 : ¬(hash [101] = hash [121]) := hash_single_ne hash HInj (by decide)
  have nw1 : ¬(hash (hash [46]) =
      hash (hash [66] ++ (hash [121] ++ hash [101]))) :=
    hash_len_ne hash HInj (by simp [HLen])
  have nw2 : ¬(hash (hash [72] ++ hash [105]) =
      hash (hash [66] ++ (hash [121] ++ hash [101]))) :=
    hash_len_ne hash HInj (by simp [HLen])
  simp only [processWord, add_char', add_word', utf8Str_singleton,
    h6, h7B, h7y, h7e, h8B, h8y, h8e, u1, u2, u3,
    n1, n2, n3, n4, n5, n6, n7, n8, n9, n10, n11, n12, n13, n14, n15,
    nw1, nw2,
    find?_nil, find?_cons, List.foldl_cons, List.foldl_nil,
    Option.isSome_none, Option.isSome_some, Bool.false_eq_true,
    if_true, if_false, eq_self_iff_true, ite_true, ite_false,
    List.flatten_cons, List.flatten_nil, List.append_nil, List.nil_append,
    List.cons_append, List.singleton_append, List.append_assoc]

lemma processWord_bang (HInj : Function.Injective hash)
    (HLen : ∀ bs, (hash bs).length = 32) (tks : List (List Nat)) :
    processWord hash
        (tks, ⟨[(hash [101], "e"), (hash [121], "y"), (hash [66], "B"),
            (hash [46], "."), (hash [105], "i"), (hash [72], "H")],
          [(hash (hash [66] ++ (hash [121] ++ hash [101])), "Bye"),
            (hash (hash [46]), "."), (hash (hash [72] ++ hash [105]), "Hi")],
          [(hash (hash (hash [72] ++ hash [105]) ++ hash [46]), "Hi.")],
          []⟩) "!" =
      (tks ++ [hash (hash [33])],
        ⟨[(hash [33], "!"), (hash [101], "e"), (hash [121], "y"),
            (hash [66], "B"), (hash [46], "."), (hash [105], "i"),
            (hash [72], "H")],
          [(hash (hash [33]), "!"),
            (hash (hash [66] ++ (hash [121] ++ hash [101])), "Bye"),
            (hash (hash [46]), "."), (hash (hash [72] ++ hash [105]), "Hi")],
          [(hash (hash (hash [72] ++ hash [105]) ++ hash [46]), "Hi.")],
          []⟩) := by
  have h6 : "!".data = ['!'] := rfl
  have h7 : utf8Char '!' = [33] := by decide
  have h8 : String.singleton '!' = "!" := rfl
  have u1 : utf8Str "!" = [33] := by decide
  have n1 : ¬(hash [101] = hash [33]) := hash_single_ne hash HInj (by decide)
  have n2 : ¬(hash [121] = hash [33]) := hash_single_ne hash HInj (by decide)
  have n3 : ¬(hash [66] = hash [33]) := hash_single_ne hash HInj (by decide)
  have n4 : ¬(hash [46] = hash [33]) := hash_single_ne hash HInj (by decide)
  have n5 : ¬(hash [105] = hash [33]) := hash_single_ne hash HInj (by decide)
  have n6 : ¬(hash [72] = hash [33]) := hash_single_ne hash HInj (by decide)
  have nw1 : ¬(hash (hash [66] ++ (hash [121] ++ hash [101])) =
      hash (hash [33])) := hash_len_ne hash HInj (by simp [HLen])
  have nw2 : ¬(hash (hash [46]) = hash (hash [33])) :=
    hash_hash_single_ne hash HInj (by decide)
  have nw3 : ¬(hash (hash [72] ++ hash [105]) = hash (hash [33])) :=
    hash_len_ne hash HInj (by simp [HLen])
  simp only [processWord, add_char', add_word', utf8Str_singleton,
    h6, h7, h8, u1, n1, n2, n3, n4, n5, n6, nw1, nw2, nw3,
    find?_nil, find?_cons, List.foldl_cons, List.foldl_nil,
    Option.isSome_none, Option.isSome_some, Bool.false_eq_true,
    if_true, if_false, eq_self_iff_true, ite_true, ite_false,
    List.flatten_cons, List.flatten_nil, List.append_nil, List.nil_append,
    List.cons_append, List.singleton_append, List.append_assoc]


lemma add_phrase'_Bye (HInj : Function.Injective hash)
    (HLen : ∀ bs, (hash bs).length = 32) :
    add_phrase' hash "Bye!"
        ⟨[(hash [33], "!"), (hash [101], "e"), (hash [121], "y"),
            (hash [66], "B"), (hash [46], "."), (hash [105], "i"),
            (hash [72], "H")],
          [(hash (hash [33]), "!"),
            (hash (hash [66] ++ (hash [121] ++ hash [101])), "Bye"),
            (hash (hash [46]), "."), (hash (hash [72] ++ hash [105]), "Hi")],
          [(hash (hash (hash [72] ++ hash [105]) ++ hash [46]), "Hi.")],
          []⟩ =
      (hash (hash (hash [66] ++ (hash [121] ++ hash [101])) ++ hash [33]),
        ⟨[(hash [33], "!"), (hash [101], "e"), (hash [121], "y"),
            (hash [66], "B"), (hash [46], "."), (hash [105], "i"),
            (hash [72], "H")],
          [(hash (hash [33]), "!"),
            (hash (hash [66] ++ (hash [121] ++ hash [101])), "Bye"),
            (hash (hash [46]), "."), (hash (hash [72] ++ hash [105]), "Hi")],
          [(hash (hash (hash [66] ++ (hash [121] ++ hash [101])) ++ hash [33]),
              "Bye!"),
            (hash (hash (hash [72] ++ hash [105]) ++ hash [46]), "Hi.")],
          []⟩) := by
  have h3 : findTokens "Bye!" = ["Bye", "!"] := by decide
  have h4 : pyIsAlnum "Bye" = true := by decide
  have h4b : pyIsAlnum "!" = false := by decide
  have h6 : "Bye".data = ['B', 'y', 'e'] := rfl
  have h7B : utf8Char 'B' = [66] := by decide
  have h7y : utf8Char 'y' = [121] := by decide
  have h7e : utf8Char 'e' = [101] := by decide
  have h8B : String.singleton 'B' = "B" := rfl
  have h8y : String.singleton 'y' = "y" := rfl
  have h8e : String.singleton 'e' = "e" := rfl
  have u1 : utf8Str "B" = [66] := by decide
  have u2 : utf8Str "y" = [121] := by decide
  have u3 : utf8Str "e" = [101] := by decide
  have u4 : utf8Str "!" = [33] := by decide
  have n1 : ¬(hash [33] = hash [66]) := hash_single_ne hash HInj (by decide)
  have n2 : ¬(hash [101] = hash [66]) := hash_single_ne hash HInj (by decide)
  have n3 : ¬(hash [121] = hash [66]) := hash_single_ne hash HInj (by decide)
  have n4 : ¬(hash [33] = hash [121]) := hash_single_ne hash HInj (by decide)
  have n5 : ¬(hash [101] = hash [121]) := hash_single_ne hash HInj (by decide)
  have n6 : ¬(hash [33] = hash [101]) := hash_single_ne hash HInj (by decide)
  have nw1 : ¬(hash (hash [33]) =
      hash (hash [66] ++ (hash [121] ++ hash [101]))) :=
    hash_len_ne hash HInj (by simp [HLen])
  have nA : ¬(hash (hash (hash [72] ++ hash [105]) ++ hash [46]) =
      hash (hash (hash [66] ++ (hash [121] ++ hash [101])) ++ hash [33])) :=
    hash_ne HInj (fun e => absurd (List.append_inj e (by simp [HLen])).1
      (hash_len_ne hash HInj (by simp [HLen])))
  simp only [add_phrase', add_word', add_char', utf8Str_singleton,
    h3, h4, h4b, h6, h7B, h7y, h7e, h8B, h8y, h8e, u1, u2, u3, u4,
    n1, n2, n3, n4, n5, n6, nw1, nA,
    find?_nil, find?_cons, List.foldl_cons, List.foldl_nil,
    Option.isSome_none, Option.isSome_some, Bool.false_eq_true,
    if_true, if_false, eq_self_iff_true, ite_true, ite_false,
    List.flatten_cons, List.flatten_nil, List.append_nil, List.nil_append,
    List.cons_append, List.singleton_append, List.append_assoc]

lemma add_phrase'_Bye_again (HInj : Function.Injective hash)
    (HLen : ∀ bs, (hash bs).length = 32) :
    add_phrase' hash "Bye!" (hiByeStore hash) =
      (hash (hash (hash [66] ++ (hash [121] ++ hash [101])) ++ hash [33]),
        hiByeStore hash) := by
  have h3 : findTokens "Bye!" = ["Bye", "!"] := by decide
  have h4 : pyIsAlnum "Bye" = true := by decide
  have h4b : pyIsAlnum "!" = false := by decide
  have h6 : "Bye".data = ['B', 'y', 'e'] := rfl
  have h7B : utf8Char 'B' = [66] := by decide
  have h7y : utf8Char 'y' = [121] := by decide
  have h7e : utf8Char 'e' = [101] := by decide
  have h8B : String.singleton 'B' = "B" := rfl
  have h8y : String.singleton 'y' = "y" := rfl
  have h8e : String.singleton 'e' = "e" := rfl
  have u1 : utf8Str "B" = [66] := by decide
  have u2 : utf8Str "y" = [121] := by decide
  have u3 : utf8Str "e" = [101] := by decide
  have u4 : utf8Str "!" = [33] := by decide
  have n1 : ¬(hash [33] = hash [66]) := hash_single_ne hash HInj (by decide)
  have n2 : ¬(hash [101] = hash [66]) := hash_single_ne hash HInj (by decide)
  have n3 : ¬(hash [121] = hash [66]) := hash_single_ne hash HInj (by decide)
  have n4 : ¬(hash [33] = hash [121]) := hash_single_ne hash HInj (by decide)
  have n5 : ¬(hash [101] = hash [121]) := hash_single_ne hash HInj (by decide)
  have n6 : ¬(hash [33] = hash [101]) := hash_single_ne hash HInj (by decide)
  have nw1 : ¬(hash (hash [33]) =
      hash (hash [66] ++ (hash [121] ++ hash [101]))) :=
    hash_len_ne hash HInj (by simp [HLen])
  simp only [add_phrase', add_word', add_char', hiByeStore,
    utf8Str_singleton, h3, h4, h4b, h6, h7B, h7y, h7e, h8B, h8y, h8e,
    u1, u2, u3, u4, n1, n2, n3, n4, n5, n6, nw1,
    find?_nil, find?_cons, List.foldl_cons, List.foldl_nil,
    Option.isSome_none, Option.isSome_some, Bool.false_eq_true,
    if_true, if_false, eq_self_iff_true, ite_true, ite_false,
    List.flatten_cons, List.flatten_nil, List.append_nil, List.nil_append,
    List.cons_append, List.singleton_append, List.append_assoc]

lemma processClause_Bye (HInj : Function.Injective hash)
    (HLen : ∀ bs, (hash bs).length = 32) (tks : List (List Nat)) :
    processClause hash
        (tks, ⟨[(hash [46], "."), (hash [105], "i"), (hash [72], "H")],
          [(hash (hash [46]), "."), (hash (hash [72] ++ hash [105]), "Hi")],
          [(hash (hash (hash [72] ++ hash [105]) ++ hash [46]), "Hi.")],
          []⟩) "Bye!" =
      (tks ++ [hash (hash [66] ++ (hash [121] ++ hash [101])),
        hash (hash [33]),
        hash (hash (hash [66] ++ (hash [121] ++ hash [101])) ++
          hash (hash [33]))],
        hiByeStore hash) := by
  have h3 : findTokens "Bye!" = ["Bye", "!"] := by decide
  have hl : (["Bye", "!"] : List String).length = 2 := rfl
  have u1 : utf8Str "Bye" = [66, 121, 101] := by decide
  have u2 : utf8Str "!" = [33] := by decide
  have m1 : ¬(hash (hash [46]) = hash [66, 121, 101]) :=
    hash_len_ne hash HInj (by simp [HLen])
  have m2 : ¬(hash (hash [72] ++ hash [105]) = hash [66, 121, 101]) :=
    hash_len_ne hash HInj (by simp [HLen])
  have m3 : ¬(hash (hash [46]) = hash [33]) :=
    hash_len_ne hash HInj (by simp [HLen])
  have m4 : ¬(hash (hash [72] ++ hash [105]) = hash [33]) :=
    hash_len_ne hash HInj (by simp [HLen])
  simp only [processClause, h3, hl, u1, u2,
    processWord_Bye hash HInj HLen, processWord_bang hash HInj HLen,
    add_phrase'_Bye hash HInj HLen, lastSlice_append_two,
    m1, m2, m3, m4, hiByeStore,
    find?_nil, find?_cons, List.foldl_cons, List.foldl_nil,
    Option.isSome_none, Option.isSome_some, Bool.false_eq_true,
    if_true, if_false, eq_self_iff_true, ite_true, ite_false,
    List.flatten_cons, List.flatten_nil, List.append_nil, List.nil_append,
    List.cons_append, List.singleton_append, List.append_assoc]

lemma processSentence_Bye (HInj : Function.Injective hash)
    (HLen : ∀ bs, (hash bs).length = 32) (tks : List (List Nat)) :
    processSentence hash
        (tks, ⟨[(hash [46], "."), (hash [105], "i"), (hash [72], "H")],
          [(hash (hash [46]), "."), (hash (hash [72] ++ hash [105]), "Hi")],
          [(hash (hash (hash [72] ++ hash [105]) ++ hash [46]), "Hi.")],
          []⟩) "Bye!" =
      (tks ++ [hash (hash [66] ++ (hash [121] ++ hash [101])),
        hash (hash [33]),
        hash (hash (hash [66] ++ (hash [121] ++ hash [101])) ++
          hash (hash [33])),
        hash (hash (hash (hash [66] ++ (hash [121] ++ hash [101])) ++
          hash (hash [33])))],
        hiByeStore hash) := by
  have h2 : splitClauses "Bye!" = ["Bye!"] := by decide
  have hl : (["Bye!"] : List String).length = 1 := rfl
  have u3 : utf8Str "Bye!" = [66, 121, 101, 33] := by decide
  have m1 : ¬(hash (hash (hash [72] ++ hash [105]) ++ hash [46]) =
      hash [66, 121, 101, 33]) := hash_len_ne hash HInj (by simp [HLen])
  simp only [processSentence, h2, hl, u3, m1,
    processClause_Bye hash HInj HLen,
    add_phrase'_Bye_again hash HInj HLen, lastSlice_append_three,
    find?_nil, find?_cons, List.foldl_cons, List.foldl_nil,
    Option.isSome_none, Option.isSome_some, Bool.false_eq_true,
    if_true, if_false, eq_self_iff_true, ite_true, ite_false,
    List.flatten_cons, List.flatten_nil, List.append_nil, List.nil_append,
    List.cons_append, List.singleton_append, List.append_assoc]

lemma run_HiBye (HInj : Function.Injective hash)
    (HLen : ∀ bs, (hash bs).length = 32) :
    tokenize_and_embed hash (.str "Hi. Bye!") emptyDict =
      (.ok [hash (hash [72] ++ hash [105]), hash (hash [46]),
        hash (hash (hash [72] ++ hash [105]) ++ hash (hash [46])),
        hash (hash (hash (hash [72] ++ hash [105]) ++ hash (hash [46]))),
        hash (hash [66] ++ (hash [121] ++ hash [101])), hash (hash [33]),
        hash (hash (hash [66] ++ (hash [121] ++ hash [101])) ++
          hash (hash [33])),
        hash (hash (hash (hash [66] ++ (hash [121] ++ hash [101])) ++
          hash (hash [33])))],
        hiByeStore hash) := by
  have h1 : splitSentences "Hi. Bye!" = ["Hi.", "Bye!"] := by decide
  simp only [tokenize_and_embed, ensure_str, h1, List.foldl_cons,
    List.foldl_nil, processSentence_HiDot hash HInj HLen,
    processSentence_Bye hash HInj HLen, List.nil_append,
    List.cons_append, List.singleton_append, List.append_assoc,
    List.append_nil]

end RunHiBye

end ByteDict

namespace ByteDict

/-! ### C2: the output contains digests that resolve nowhere -/

/-- C2: on a fresh store, `tokenize_and_embed("Hi. Bye!")` does return a
non-empty digest sequence, but not every entry is resolvable: the digest
appended for the clause `"Hi."` is the hash of the concatenated
word-composite digests of `"Hi"` and `"."` (the tokenizer routes the
punctuation token through the word path), while `insertPhrase` registers
`"Hi."` under the hash of word-digest ∥ character-digest — a different
key — so the emitted clause digest is a key of none of the three
mappings after the call. -/
theorem c2_emitted_digest_unresolvable (hash : List Nat → List Nat)
    (HInj : Function.Injective hash)
    (HLen : ∀ bs, (hash bs).length = 32) :
    (tokenize_and_embed hash (.str "Hi. Bye!") emptyDict).1 =
      .ok [hash (hash [72] ++ hash [105]), hash (hash [46]),
        hash (hash (hash [72] ++ hash [105]) ++ hash (hash [46])),
        hash (hash (hash (hash [72] ++ hash [105]) ++ hash (hash [46]))),
        hash (hash [66] ++ (hash [121] ++ hash [101])), hash (hash [33]),
        hash (hash (hash [66] ++ (hash [121] ++ hash [101])) ++
          hash (hash [33])),
        hash (hash (hash (hash [66] ++ (hash [121] ++ hash [101])) ++
          hash (hash [33])))] ∧
    hash (hash (hash [72] ++ hash [105]) ++ hash (hash [46])) ∈
      [hash (hash [72] ++ hash [105]), hash (hash [46]),
        hash (hash (hash [72] ++ hash [105]) ++ hash (hash [46])),
        hash (hash (hash (hash [72] ++ hash [105]) ++ hash (hash [46]))),
        hash (hash [66] ++ (hash [121] ++ hash [101])), hash (hash [33]),
        hash (hash (hash [66] ++ (hash [121] ++ hash [101])) ++
          hash (hash [33])),
        hash (hash (hash (hash [66] ++ (hash [121] ++ hash [101])) ++
          hash (hash [33])))] ∧
    find? (hash (hash (hash [72] ++ hash [105]) ++ hash (hash [46])))
      ((tokenize_and_embed hash (.str "Hi. Bye!") emptyDict).2).char_store =
        none ∧
    find? (hash (hash (hash [72] ++ hash [105]) ++ hash (hash [46])))
      ((tokenize_and_embed hash (.str "Hi. Bye!") emptyDict).2).word_store =
        none ∧
    find? (hash (hash (hash [72] ++ hash [105]) ++ hash (hash [46])))
      ((tokenize_and_embed hash (.str "Hi. Bye!") emptyDict).2).phrase_store =
        none := by
  have c1 : ¬(hash [33] = hash (hash (hash [72] ++ hash [105]) ++
      hash (hash [46]))) := hash_len_ne hash HInj (by simp [HLen])
  have c2 : ¬(hash [101] = hash (hash (hash [72] ++ hash [105]) ++
      hash (hash [46]))) := hash_len_ne hash HInj (by simp [HLen])
  have c3 : ¬(hash [121] = hash (hash (hash [72] ++ hash [105]) ++
      hash (hash [46]))) := hash_len_ne hash HInj (by simp [HLen])
  have c4 : ¬(hash [66] = hash (hash (hash [72] ++ hash [105]) ++
      hash (hash [46]))) := hash_len_ne hash HInj (by simp [HLen])
  have c5 : ¬(hash [46] = hash (hash (hash [72] ++ hash [105]) ++
      hash (hash [46]))) := hash_len_ne hash HInj (by simp [HLen])
  have c6 : ¬(hash [105] = hash (hash (hash [72] ++ hash [105]) ++
      hash (hash [46]))) := hash_len_ne hash HInj (by simp [HLen])
  have c7 : ¬(hash [72] = hash (hash (hash [72] ++ hash [105]) ++
      hash (hash [46]))) := hash_len_ne hash HInj (by simp [HLen])
  have w1 : ¬(hash (hash [33]) = hash (hash (hash [72] ++ hash [105]) ++
      hash (hash [46]))) := hash_len_ne hash HInj (by simp [HLen])
  have w2 : ¬(hash (hash [66] ++ (hash [121] ++ hash [101])) =
      hash (hash (hash [72] ++ hash [105]) ++ hash (hash [46]))) :=
    hash_len_ne hash HInj (by simp [HLen])
  have w3 : ¬(hash (hash [46]) = hash (hash (hash [72] ++ hash [105]) ++
      hash (hash [46]))) := hash_len_ne hash HInj (by simp [HLen])
  have w4 : ¬(hash (hash [72] ++ hash [105]) =
      hash (hash (hash [72] ++ hash [105]) ++ hash (hash [46]))) :=
    hash_ne HInj (fun e => absurd (List.append_inj e (by simp [HLen])).1
      (hash_len_ne hash HInj (by simp [HLen])))
  have p1 : ¬(hash (hash (hash [66] ++ (hash [121] ++ hash [101])) ++
      hash [33]) =
      hash (hash (hash [72] ++ hash [105]) ++ hash (hash [46]))) :=
    hash_ne HInj (fun e => absurd (List.append_inj e (by simp [HLen])).1
      (hash_len_ne hash HInj (by simp [HLen])))
  have p2 : ¬(hash (hash (hash [72] ++ hash [105]) ++ hash [46]) =
      hash (hash (hash [72] ++ hash [105]) ++ hash (hash [46]))) :=
    hash_ne HInj (fun e => absurd (List.append_inj e (by simp [HLen])).2
      (hash_len_ne hash HInj (by simp [HLen])))
  rw [run_HiBye hash HInj HLen]
  refine ⟨rfl, by simp, ?_, ?_, ?_⟩ <;>
    simp only [hiByeStore, find?_cons, find?_nil,
      c1, c2, c3, c4, c5, c6, c7, w1, w2, w3, w4, p1, p2, if_false]

theorem c2_emitted_digest_unresolvable_witness :
    (tokenize_and_embed myHash (.str "Hi. Bye!") emptyDict).1 =
      .ok [myHash (myHash [72] ++ myHash [105]), myHash (myHash [46]),
        myHash (myHash (myHash [72] ++ myHash [105]) ++ myHash (myHash [46])),
        myHash (myHash (myHash (myHash [72] ++ myHash [105]) ++
          myHash (myHash [46]))),
        myHash (myHash [66] ++ (myHash [121] ++ myHash [101])),
        myHash (myHash [33]),
        myHash (myHash (myHash [66] ++ (myHash [121] ++ myHash [101])) ++
          myHash (myHash [33])),
        myHash (myHash (myHash (myHash [66] ++ (myHash [121] ++
          myHash [101])) ++ myHash (myHash [33])))] ∧
    myHash (myHash (myHash [72] ++ myHash [105]) ++ myHash (myHash [46])) ∈
      [myHash (myHash [72] ++ myHash [105]), myHash (myHash [46]),
        myHash (myHash (myHash [72] ++ myHash [105]) ++ myHash (myHash [46])),
        myHash (myHash (myHash (myHash [72] ++ myHash [105]) ++
          myHash (myHash [46]))),
        myHash (myHash [66] ++ (myHash [121] ++ myHash [101])),
        myHash (myHash [33]),
        myHash (myHash (myHash [66] ++ (myHash [121] ++ myHash [101])) ++
          myHash (myHash [33])),
        myHash (myHash (myHash (myHash [66] ++ (myHash [121] ++
          myHash [101])) ++ myHash (myHash [33])))] ∧
    find? (myHash (myHash (myHash [72] ++ myHash [105]) ++
        myHash (myHash [46])))
      ((tokenize_and_embed myHash (.str "Hi. Bye!") emptyDict).2).char_store =
        none ∧
    find? (myHash (myHash (myHash [72] ++ myHash [105]) ++
        myHash (myHash [46])))
      ((tokenize_and_embed myHash (.str "Hi. Bye!") emptyDict).2).word_store =
        none ∧
    find? (myHash (myHash (myHash [72] ++ myHash [105]) ++
        myHash (myHash [46])))
      ((tokenize_and_embed myHash (.str "Hi. Bye!") emptyDict).2).phrase_store =
        none :=
  c2_emitted_digest_unresolvable myHash myHash_injective myHash_length

end ByteDict
